import Mathlib

/-!
# Statement nodes and the GLSL shader builder of GSK

A shallow embedding of two files of the library.

`gsk/gskslnode.c`, the statement layer of the shading language: node
allocation, the four node classes, `gsk_sl_node_parse_declaration`,
`gsk_sl_node_parse_statement`, `gsk_sl_node_print` and `gsk_sl_node_write_spv`.

`gsk/gl/gskshaderbuilder.c`, the textual backend: the builder and its define
list, `lookup_shader_code`, `gsk_shader_builder_compile_shader` and
`gsk_shader_builder_create_program`.

C pointers that may be `NULL` are `Option`s.  Mutable objects handed around by
pointer (the scope, the preprocessor, the SPIR-V writer) are passed explicitly
and returned updated.  Code that lives in other files of the library
(expression and type parsing, the scope, the type system, values, functions)
is taken as a record of functions over abstract carrier types, so that
every theorem holds for all implementations of them.  GLib and the GL driver
are a record of answer functions in the same way.
-/

/-! ## Tokens and the preprocessor cursor -/

/-- Token kinds.  The kinds named in `gskslnode.c` are listed one by one;
every other kind of the tokenizer (literals, operators, other punctuation)
is `OTHER code`, which the statement switch sends to its `default` label. -/
inductive GskSlTokenType
  | EOF | SEMICOLON | LEFT_PAREN | EQUAL | IDENTIFIER | RETURN
  | CONST | IN | OUT | INOUT | INVARIANT | COHERENT | VOLATILE | RESTRICT
  | READONLY | WRITEONLY
  | VOID | FLOAT | DOUBLE | INT | UINT | BOOL
  | BVEC2 | BVEC3 | BVEC4 | IVEC2 | IVEC3 | IVEC4 | UVEC2 | UVEC3 | UVEC4
  | VEC2 | VEC3 | VEC4 | DVEC2 | DVEC3 | DVEC4
  | MAT2 | MAT3 | MAT4 | DMAT2 | DMAT3 | DMAT4
  | MAT2X2 | MAT2X3 | MAT2X4 | MAT3X2 | MAT3X3 | MAT3X4
  | MAT4X2 | MAT4X3 | MAT4X4
  | DMAT2X2 | DMAT2X3 | DMAT2X4 | DMAT3X2 | DMAT3X3 | DMAT3X4
  | DMAT4X2 | DMAT4X3 | DMAT4X4
  | STRUCT
  | OTHER (code : Nat)
  deriving Repr

/-- A number for each token kind: the listed kinds are numbered in order,
`OTHER code` comes after them. -/
def GskSlTokenType.toNat : GskSlTokenType → Nat
  | .EOF => 0 | .SEMICOLON => 1 | .LEFT_PAREN => 2 | .EQUAL => 3 | .IDENTIFIER => 4
  | .RETURN => 5 | .CONST => 6 | .IN => 7 | .OUT => 8 | .INOUT => 9 | .INVARIANT => 10
  | .COHERENT => 11 | .VOLATILE => 12 | .RESTRICT => 13 | .READONLY => 14 | .WRITEONLY => 15
  | .VOID => 16 | .FLOAT => 17 | .DOUBLE => 18 | .INT => 19 | .UINT => 20 | .BOOL => 21
  | .BVEC2 => 22 | .BVEC3 => 23 | .BVEC4 => 24 | .IVEC2 => 25 | .IVEC3 => 26 | .IVEC4 => 27
  | .UVEC2 => 28 | .UVEC3 => 29 | .UVEC4 => 30 | .VEC2 => 31 | .VEC3 => 32 | .VEC4 => 33
  | .DVEC2 => 34 | .DVEC3 => 35 | .DVEC4 => 36 | .MAT2 => 37 | .MAT3 => 38 | .MAT4 => 39
  | .DMAT2 => 40 | .DMAT3 => 41 | .DMAT4 => 42 | .MAT2X2 => 43 | .MAT2X3 => 44 | .MAT2X4 => 45
  | .MAT3X2 => 46 | .MAT3X3 => 47 | .MAT3X4 => 48 | .MAT4X2 => 49 | .MAT4X3 => 50
  | .MAT4X4 => 51 | .DMAT2X2 => 52 | .DMAT2X3 => 53 | .DMAT2X4 => 54 | .DMAT3X2 => 55
  | .DMAT3X3 => 56 | .DMAT3X4 => 57 | .DMAT4X2 => 58 | .DMAT4X3 => 59 | .DMAT4X4 => 60
  | .STRUCT => 61
  | .OTHER code => 62 + code

/-- The token kind with a given number. -/
def GskSlTokenType.ofNat : Nat → GskSlTokenType
  | 0 => .EOF | 1 => .SEMICOLON | 2 => .LEFT_PAREN | 3 => .EQUAL | 4 => .IDENTIFIER
  | 5 => .RETURN | 6 => .CONST | 7 => .IN | 8 => .OUT | 9 => .INOUT | 10 => .INVARIANT
  | 11 => .COHERENT | 12 => .VOLATILE | 13 => .RESTRICT | 14 => .READONLY | 15 => .WRITEONLY
  | 16 => .VOID | 17 => .FLOAT | 18 => .DOUBLE | 19 => .INT | 20 => .UINT | 21 => .BOOL
  | 22 => .BVEC2 | 23 => .BVEC3 | 24 => .BVEC4 | 25 => .IVEC2 | 26 => .IVEC3 | 27 => .IVEC4
  | 28 => .UVEC2 | 29 => .UVEC3 | 30 => .UVEC4 | 31 => .VEC2 | 32 => .VEC3 | 33 => .VEC4
  | 34 => .DVEC2 | 35 => .DVEC3 | 36 => .DVEC4 | 37 => .MAT2 | 38 => .MAT3 | 39 => .MAT4
  | 40 => .DMAT2 | 41 => .DMAT3 | 42 => .DMAT4 | 43 => .MAT2X2 | 44 => .MAT2X3 | 45 => .MAT2X4
  | 46 => .MAT3X2 | 47 => .MAT3X3 | 48 => .MAT3X4 | 49 => .MAT4X2 | 50 => .MAT4X3
  | 51 => .MAT4X4 | 52 => .DMAT2X2 | 53 => .DMAT2X3 | 54 => .DMAT2X4 | 55 => .DMAT3X2
  | 56 => .DMAT3X3 | 57 => .DMAT3X4 | 58 => .DMAT4X2 | 59 => .DMAT4X3 | 60 => .DMAT4X4
  | 61 => .STRUCT
  | n + 62 => .OTHER n

instance : DecidableEq GskSlTokenType := fun a b =>
  if h : a.toNat = b.toNat then
    isTrue (by
      have key : ∀ t : GskSlTokenType, GskSlTokenType.ofNat t.toNat = t := by
        intro t
        cases t with
        | OTHER code =>
          show GskSlTokenType.ofNat (62 + code) = _
          rw [Nat.add_comm]
          rfl
        | _ => rfl
      have e := congrArg GskSlTokenType.ofNat h
      rwa [key, key] at e)
  else isFalse (fun e => h (congrArg GskSlTokenType.toNat e))

/-- A token: its kind and its text (`token->str`, read for identifiers). -/
structure GskSlToken where
  type : GskSlTokenType
  str : String
  deriving DecidableEq, Repr

/-- The test `gsk_sl_token_is (token, type)`. -/
def gsk_sl_token_is (token : GskSlToken) (type : GskSlTokenType) : Bool :=
  decide (token.type = type)

/-- Diagnostic categories passed to `gsk_sl_preprocessor_error` in
`gskslnode.c`. -/
inductive GskSlErrorCategory
  | SYNTAX | SCOPE | TYPE_MISMATCH
  deriving DecidableEq, Repr

/-- A recorded diagnostic: category and formatted message. -/
structure GskSlDiagnostic where
  category : GskSlErrorCategory
  message : String
  deriving DecidableEq, Repr

/-- Modelled from the spec: the preprocessor (`gskslpreprocessor.c` is not part
of the sources at hand).  It is a cursor over the token stream, kept as the
list of tokens not yet consumed, together with the diagnostics recorded so far
in the order they were recorded.  An exhausted list is the end of input. -/
structure GskSlPreprocessor where
  tokens : List GskSlToken
  errors : List GskSlDiagnostic
  deriving DecidableEq, Repr

/-- The end-of-input token. -/
def GskSlToken.eof : GskSlToken := ⟨GskSlTokenType.EOF, ""⟩

/-- Modelled from the spec: `peek()` returns the current token without
consuming it; end of input is surfaced as a token kind. -/
def gsk_sl_preprocessor_get (preproc : GskSlPreprocessor) : GskSlToken :=
  preproc.tokens.headD GskSlToken.eof

/-- Modelled from the spec: `consume(ownerNode)` advances one token.  The
owner node only serves to attribute source positions and is left out. -/
def gsk_sl_preprocessor_consume (preproc : GskSlPreprocessor) : GskSlPreprocessor :=
  { preproc with tokens := preproc.tokens.tail }

/-- Modelled from the spec: `error(category, message)` records a diagnostic
and returns without aborting. -/
def gsk_sl_preprocessor_error (preproc : GskSlPreprocessor)
    (category : GskSlErrorCategory) (message : String) : GskSlPreprocessor :=
  { preproc with errors := preproc.errors ++ [⟨category, message⟩] }

/-- Modelled from the spec: `syncTo(tokenKind)` discards tokens up to the next
occurrence of `tokenKind` and stops on it, so that the caller consumes it: the
statement parser resynchronises "to the next `;` before consuming it", with
the one `gsk_sl_preprocessor_consume` both of its paths share.  At the end of
input nothing is left to discard. -/
def gsk_sl_preprocessor_sync (preproc : GskSlPreprocessor)
    (type : GskSlTokenType) : GskSlPreprocessor :=
  { preproc with
    tokens := preproc.tokens.dropWhile (fun t => !gsk_sl_token_is t type) }

/-! ## Variables, decorations, nodes -/

/-- The scalar kinds accepted by `gsk_sl_type_get_scalar`. -/
inductive GskSlScalarType
  | VOID | FLOAT | DOUBLE | INT | UINT | BOOL
  deriving DecidableEq, Repr

/-- Modelled from the spec: a pointer type wraps a base type with an
is-pointer flag and an access qualifier; construction is pure. -/
structure GskSlPointerType (Ty : Type) where
  type : Ty
  is_pointer : Bool
  access : Int
  deriving DecidableEq, Repr

/-- Modelled from the spec: `makePointer(baseType, isPointer,
accessQualifier)`. -/
def gsk_sl_pointer_type_new {Ty : Type} (type : Ty) (is_pointer : Bool) (access : Int) :
    GskSlPointerType Ty :=
  ⟨type, is_pointer, access⟩

/-- Modelled from the spec: a variable is a pointer type, an optional name, an
optional constant initial value and a const flag. -/
structure GskSlVariable (Ty Val : Type) where
  type : GskSlPointerType Ty
  name : Option String
  initial_value : Option Val
  constant : Bool
  deriving DecidableEq, Repr

/-- Modelled from the spec: variable construction from its four parts. -/
def gsk_sl_variable_new {Ty Val : Type} (type : GskSlPointerType Ty) (name : Option String)
    (initial_value : Option Val) (constant : Bool) : GskSlVariable Ty Val :=
  ⟨type, name, initial_value, constant⟩

/-- Modelled from the spec: the optional constant initial value of a variable. -/
def gsk_sl_variable_get_initial_value {Ty Val : Type} (v : GskSlVariable Ty Val) : Option Val :=
  v.initial_value

/-- The two decoration slots read by `gsk_sl_node_parse_declaration`. -/
inductive GskSlDecoration
  | CONST | CALLER_ACCESS
  deriving DecidableEq, Repr

/-- One slot of `GskSlDecorations.values`: whether it was set, and its
value. -/
structure GskSlDecorationValue where
  set : Bool
  value : Int
  deriving DecidableEq, Repr

/-- The decoration table filled by `gsk_sl_decoration_list_parse`. -/
structure GskSlDecorations where
  values : GskSlDecoration → GskSlDecorationValue

/-- The four node classes (`GSK_SL_NODE_EMPTY`, `GSK_SL_NODE_DECLARATION`,
`GSK_SL_NODE_RETURN`, `GSK_SL_NODE_EXPRESSION`). -/
inductive GskSlNodeClass
  | EMPTY | DECLARATION | RETURN | EXPRESSION
  deriving DecidableEq, Repr

/-- A statement node.  The C code has one struct per class, each starting with
the common header (`class`, `ref_count`); here the payload fields of all four
structs sit side by side, and those a class does not have stay `none`, which is
the zero fill of `g_slice_alloc0`. -/
structure GskSlNode (Ty Expr Val : Type) where
  klass : GskSlNodeClass
  ref_count : Nat
  /-- `GskSlNodeDeclaration.variable` -/
  variable_ : Option (GskSlVariable Ty Val)
  /-- `GskSlNodeDeclaration.initial` -/
  initial : Option Expr
  /-- `GskSlNodeReturn.value` -/
  value : Option Expr
  /-- `GskSlNodeExpression.expression` -/
  expression : Option Expr
  deriving DecidableEq, Repr

/-- The allocator `gsk_sl_node_alloc`: zero-filled memory, then the class
pointer and a reference count of one.  `g_slice_alloc0` aborts rather than
return `NULL`, so the result is a node. -/
def gsk_sl_node_alloc {Ty Expr Val : Type} (klass : GskSlNodeClass) : GskSlNode Ty Expr Val :=
  { klass := klass, ref_count := 1, variable_ := none, initial := none, value := none,
    expression := none }

/-- A node carries the payload of its class and nothing else. -/
def GskSlNode.payload_matches_class {Ty Expr Val : Type} (node : GskSlNode Ty Expr Val) :
    Prop :=
  match node.klass with
  | .EMPTY =>
    node.variable_ = none ∧ node.initial = none ∧ node.value = none ∧ node.expression = none
  | .DECLARATION => node.variable_.isSome = true ∧ node.value = none ∧ node.expression = none
  | .RETURN => node.variable_ = none ∧ node.initial = none ∧ node.expression = none
  | .EXPRESSION =>
    node.variable_ = none ∧ node.initial = none ∧ node.value = none ∧
      node.expression.isSome = true

/-! ## Collaborators from other files -/

/-- What a parsing routine leaves behind: its result, the scope and the
preprocessor as they are after the call. -/
structure Parsed (α Scope : Type) where
  result : α
  scope : Scope
  preproc : GskSlPreprocessor

/-- Functions of the library that `gskslnode.c` calls and that are defined in
other files.  `Scope`, `Ty`, `Expr`, `Val`, `Fn` stand for `GskSlScope`,
`GskSlType`, `GskSlExpression`, `GskSlValue`, `GskSlFunction`.  A function
matcher is the list of candidate functions it was initialised with. Parsing
routines return non-null results (the node code dereferences them without a
check). -/
structure GskSlCollaborators (Scope Ty Expr Val Fn : Type) where
  gsk_sl_scope_lookup_type : Scope → String → Option Ty
  gsk_sl_scope_get_return_type : Scope → Option Ty
  gsk_sl_scope_add_variable : Scope → GskSlVariable Ty Val → Scope
  gsk_sl_type_get_scalar : GskSlScalarType → Ty
  gsk_sl_type_equal : Ty → Ty → Bool
  gsk_sl_type_can_convert : Ty → Ty → Bool
  gsk_sl_type_get_name : Ty → String
  gsk_sl_type_new_parse : Scope → GskSlPreprocessor → Parsed Ty Scope
  gsk_sl_decoration_list_parse : Scope → GskSlPreprocessor → Parsed GskSlDecorations Scope
  gsk_sl_expression_parse : Scope → GskSlPreprocessor → Parsed Expr Scope
  gsk_sl_expression_parse_assignment : Scope → GskSlPreprocessor → Parsed Expr Scope
  gsk_sl_expression_parse_function_call :
    Scope → GskSlPreprocessor → Option (List Fn) → Fn → Parsed Expr Scope
  gsk_sl_expression_get_return_type : Expr → Ty
  gsk_sl_expression_get_constant : Expr → Option Val
  gsk_sl_value_new_convert : Val → Ty → Val
  gsk_sl_function_new_constructor : Ty → Fn
  gsk_sl_function_is_builtin_constructor : Fn → Bool

section Parsing

variable {Scope Ty Expr Val Fn : Type}

/-- The initializer part of `gsk_sl_node_parse_declaration` (what follows a
consumed `=`): parse an assignment expression, check it against the declared
type, and fold it to a constant when it has one.  The result is the pair
(`declaration->initial`, `value`). -/
def gsk_sl_node_parse_declaration_initial (X : GskSlCollaborators Scope Ty Expr Val Fn)
    (scope : Scope) (stream : GskSlPreprocessor) (type : Ty) :
    Parsed (Option Expr × Option Val) Scope :=
  let r := X.gsk_sl_expression_parse_assignment scope stream
  let initial := r.result
  if !X.gsk_sl_type_can_convert type (X.gsk_sl_expression_get_return_type initial) then
    { result := (none, none)
      scope := r.scope
      preproc := gsk_sl_preprocessor_error r.preproc GskSlErrorCategory.TYPE_MISMATCH
        ("Cannot convert from initializer type "
          ++ X.gsk_sl_type_get_name (X.gsk_sl_expression_get_return_type initial)
          ++ " to variable type " ++ X.gsk_sl_type_get_name type) }
  else
    match X.gsk_sl_expression_get_constant initial with
    | some unconverted =>
      { result := (some initial, some (X.gsk_sl_value_new_convert unconverted type))
        scope := r.scope, preproc := r.preproc }
    | none => { result := (some initial, none), scope := r.scope, preproc := r.preproc }

/-- The name and initializer part of `gsk_sl_node_parse_declaration`: the
result is the triple (`name`, `declaration->initial`, `value`). -/
def gsk_sl_node_parse_declaration_name (X : GskSlCollaborators Scope Ty Expr Val Fn)
    (scope : Scope) (stream : GskSlPreprocessor) (type : Ty) :
    Parsed (Option String × Option Expr × Option Val) Scope :=
  let token := gsk_sl_preprocessor_get stream
  if gsk_sl_token_is token GskSlTokenType.IDENTIFIER then
    let name := token.str
    let stream := gsk_sl_preprocessor_consume stream
    let token := gsk_sl_preprocessor_get stream
    if gsk_sl_token_is token GskSlTokenType.EQUAL then
      let stream := gsk_sl_preprocessor_consume stream
      let r := gsk_sl_node_parse_declaration_initial X scope stream type
      { result := (some name, r.result.1, r.result.2), scope := r.scope, preproc := r.preproc }
    else
      { result := (some name, none, none), scope := scope, preproc := stream }
  else
    { result := (none, none, none), scope := scope, preproc := stream }

/-- The function `gsk_sl_node_parse_declaration`. -/
def gsk_sl_node_parse_declaration (X : GskSlCollaborators Scope Ty Expr Val Fn)
    (scope : Scope) (stream : GskSlPreprocessor) (decoration : GskSlDecorations) (type : Ty) :
    Parsed (GskSlNode Ty Expr Val) Scope :=
  let declaration : GskSlNode Ty Expr Val := gsk_sl_node_alloc GskSlNodeClass.DECLARATION
  let r := gsk_sl_node_parse_declaration_name X scope stream type
  let name := r.result.1
  let initial := r.result.2.1
  let value := r.result.2.2
  let pointer_type := gsk_sl_pointer_type_new type true
    (decoration.values GskSlDecoration.CALLER_ACCESS).value
  let variable_ := gsk_sl_variable_new pointer_type name value
    (decoration.values GskSlDecoration.CONST).set
  { result := { declaration with variable_ := some variable_, initial := initial }
    scope := X.gsk_sl_scope_add_variable r.scope variable_
    preproc := r.preproc }

/-- The end of `gsk_sl_node_parse_statement` (after the switch): require a
semicolon, resynchronise when it is missing, consume one token, return the
node. -/
def gsk_sl_node_parse_statement_end
    (node : GskSlNode Ty Expr Val) (scope : Scope) (preproc : GskSlPreprocessor) :
    Parsed (Option (GskSlNode Ty Expr Val)) Scope :=
  let token := gsk_sl_preprocessor_get preproc
  let preproc :=
    if !gsk_sl_token_is token GskSlTokenType.SEMICOLON then
      gsk_sl_preprocessor_sync
        (gsk_sl_preprocessor_error preproc GskSlErrorCategory.SYNTAX
          "No semicolon at end of statement.")
        GskSlTokenType.SEMICOLON
    else preproc
  { result := some node, scope := scope, preproc := gsk_sl_preprocessor_consume preproc }

/-- The block at label `its_a_type` of `gsk_sl_node_parse_statement`:
decorations, type specifier, then a constructor call or a declaration. -/
def gsk_sl_node_parse_statement_its_a_type (X : GskSlCollaborators Scope Ty Expr Val Fn)
    (scope : Scope) (preproc : GskSlPreprocessor) : Parsed (GskSlNode Ty Expr Val) Scope :=
  let d := X.gsk_sl_decoration_list_parse scope preproc
  let decoration := d.result
  let t := X.gsk_sl_type_new_parse d.scope d.preproc
  let type := t.result
  let token := gsk_sl_preprocessor_get t.preproc
  if token.type = GskSlTokenType.LEFT_PAREN then
    let constructor := X.gsk_sl_function_new_constructor type
    let node_expression : GskSlNode Ty Expr Val := gsk_sl_node_alloc GskSlNodeClass.EXPRESSION
    let e :=
      if X.gsk_sl_function_is_builtin_constructor constructor then
        X.gsk_sl_expression_parse_function_call t.scope t.preproc none constructor
      else
        X.gsk_sl_expression_parse_function_call t.scope t.preproc (some [constructor]) constructor
    { result := { node_expression with expression := some e.result }
      scope := e.scope, preproc := e.preproc }
  else
    gsk_sl_node_parse_declaration X t.scope t.preproc decoration type

/-- The `case GSK_SL_TOKEN_RETURN` block of `gsk_sl_node_parse_statement`. -/
def gsk_sl_node_parse_statement_return (X : GskSlCollaborators Scope Ty Expr Val Fn)
    (scope : Scope) (preproc : GskSlPreprocessor) : Parsed (GskSlNode Ty Expr Val) Scope :=
  let return_node : GskSlNode Ty Expr Val := gsk_sl_node_alloc GskSlNodeClass.RETURN
  let preproc := gsk_sl_preprocessor_consume preproc
  let token := gsk_sl_preprocessor_get preproc
  let v : Parsed (Option Expr) Scope :=
    if !gsk_sl_token_is token GskSlTokenType.SEMICOLON then
      let e := X.gsk_sl_expression_parse scope preproc
      { result := some e.result, scope := e.scope, preproc := e.preproc }
    else
      { result := none, scope := scope, preproc := preproc }
  let return_node := { return_node with value := v.result }
  let void := X.gsk_sl_type_get_scalar GskSlScalarType.VOID
  let preproc :=
    match X.gsk_sl_scope_get_return_type v.scope with
    | none =>
      gsk_sl_preprocessor_error v.preproc GskSlErrorCategory.SCOPE "Cannot return from here."
    | some return_type =>
      match return_node.value with
      | none =>
        if !X.gsk_sl_type_equal return_type void then
          gsk_sl_preprocessor_error v.preproc GskSlErrorCategory.TYPE_MISMATCH
            ("Functions expectes a return value of type "
              ++ X.gsk_sl_type_get_name return_type)
        else v.preproc
      | some value =>
        if X.gsk_sl_type_equal return_type void then
          gsk_sl_preprocessor_error v.preproc GskSlErrorCategory.TYPE_MISMATCH
            "Cannot return a value from a void function."
        else if !X.gsk_sl_type_can_convert return_type
            (X.gsk_sl_expression_get_return_type value) then
          gsk_sl_preprocessor_error v.preproc GskSlErrorCategory.TYPE_MISMATCH
            ("Cannot convert type "
              ++ X.gsk_sl_type_get_name (X.gsk_sl_expression_get_return_type value)
              ++ " to return type " ++ X.gsk_sl_type_get_name return_type ++ ".")
        else v.preproc
  { result := return_node, scope := v.scope, preproc := preproc }

/-- The `default` block of `gsk_sl_node_parse_statement`: a general
expression wrapped in an expression node. -/
def gsk_sl_node_parse_statement_default (X : GskSlCollaborators Scope Ty Expr Val Fn)
    (scope : Scope) (preproc : GskSlPreprocessor) : Parsed (GskSlNode Ty Expr Val) Scope :=
  let node_expression : GskSlNode Ty Expr Val := gsk_sl_node_alloc GskSlNodeClass.EXPRESSION
  let e := X.gsk_sl_expression_parse scope preproc
  { result := { node_expression with expression := some e.result }
    scope := e.scope, preproc := e.preproc }

/-- The labels of the statement switch. -/
inductive StatementCase
  | semicolon | eof | its_a_type | return_ | identifier | default
  deriving DecidableEq, Repr

/-- The `case` labels of the switch in `gsk_sl_node_parse_statement`: which
label a token kind selects. -/
def gsk_sl_node_parse_statement_case : GskSlTokenType → StatementCase
  | .SEMICOLON => .semicolon
  | .EOF => .eof
  | .CONST | .IN | .OUT | .INOUT | .INVARIANT | .COHERENT | .VOLATILE | .RESTRICT
  | .READONLY | .WRITEONLY
  | .VOID | .FLOAT | .DOUBLE | .INT | .UINT | .BOOL
  | .BVEC2 | .BVEC3 | .BVEC4 | .IVEC2 | .IVEC3 | .IVEC4 | .UVEC2 | .UVEC3 | .UVEC4
  | .VEC2 | .VEC3 | .VEC4 | .DVEC2 | .DVEC3 | .DVEC4
  | .MAT2 | .MAT3 | .MAT4 | .DMAT2 | .DMAT3 | .DMAT4
  | .MAT2X2 | .MAT2X3 | .MAT2X4 | .MAT3X2 | .MAT3X3 | .MAT3X4
  | .MAT4X2 | .MAT4X3 | .MAT4X4
  | .DMAT2X2 | .DMAT2X3 | .DMAT2X4 | .DMAT3X2 | .DMAT3X3 | .DMAT3X4
  | .DMAT4X2 | .DMAT4X3 | .DMAT4X4
  | .STRUCT => .its_a_type
  | .RETURN => .return_
  | .IDENTIFIER => .identifier
  | .LEFT_PAREN | .EQUAL | .OTHER _ => .default

/-- The function `gsk_sl_node_parse_statement`.  The result is the returned
node pointer together with the scope and the preprocessor after the call. -/
def gsk_sl_node_parse_statement (X : GskSlCollaborators Scope Ty Expr Val Fn)
    (scope : Scope) (preproc : GskSlPreprocessor) :
    Parsed (Option (GskSlNode Ty Expr Val)) Scope :=
  let token := gsk_sl_preprocessor_get preproc
  match gsk_sl_node_parse_statement_case token.type with
  | .semicolon =>
    gsk_sl_node_parse_statement_end (gsk_sl_node_alloc GskSlNodeClass.EMPTY) scope preproc
  | .eof =>
    { result := some (gsk_sl_node_alloc GskSlNodeClass.EMPTY)
      scope := scope
      preproc := gsk_sl_preprocessor_error preproc GskSlErrorCategory.SYNTAX
        "Unexpected end of document" }
  | .its_a_type =>
    let r := gsk_sl_node_parse_statement_its_a_type X scope preproc
    gsk_sl_node_parse_statement_end r.result r.scope r.preproc
  | .return_ =>
    let r := gsk_sl_node_parse_statement_return X scope preproc
    gsk_sl_node_parse_statement_end r.result r.scope r.preproc
  | .identifier =>
    if (X.gsk_sl_scope_lookup_type scope token.str).isSome then
      let r := gsk_sl_node_parse_statement_its_a_type X scope preproc
      gsk_sl_node_parse_statement_end r.result r.scope r.preproc
    else
      let r := gsk_sl_node_parse_statement_default X scope preproc
      gsk_sl_node_parse_statement_end r.result r.scope r.preproc
  | .default =>
    let r := gsk_sl_node_parse_statement_default X scope preproc
    gsk_sl_node_parse_statement_end r.result r.scope r.preproc

end Parsing

/-! ## Printing -/

/-- Modelled from the spec: the printer renders text; it is the text
appended so far. -/
structure GskSlPrinter where
  text : String
  deriving DecidableEq, Repr

/-- Modelled from the spec: appending a piece of text to the printer. -/
def gsk_sl_printer_append (printer : GskSlPrinter) (s : String) : GskSlPrinter :=
  ⟨printer.text ++ s⟩

/-- Printing routines of other files called by the node printers. -/
structure GskSlPrintCollaborators (Ty Expr Val : Type) where
  gsk_sl_variable_print : GskSlVariable Ty Val → GskSlPrinter → GskSlPrinter
  gsk_sl_expression_print : Expr → GskSlPrinter → GskSlPrinter

section Printing

variable {Ty Expr Val : Type}

/-- The printer `gsk_sl_node_empty_print`: prints nothing. -/
def gsk_sl_node_empty_print (_node : GskSlNode Ty Expr Val) (printer : GskSlPrinter) :
    GskSlPrinter :=
  printer

/-- The printer `gsk_sl_node_declaration_print`.  The variable pointer is
dereferenced without a check, so a declaration node without a variable has no
defined output (`none`). -/
def gsk_sl_node_declaration_print (P : GskSlPrintCollaborators Ty Expr Val)
    (node : GskSlNode Ty Expr Val) (printer : GskSlPrinter) : Option GskSlPrinter :=
  match node.variable_ with
  | none => none
  | some v =>
    let printer := P.gsk_sl_variable_print v printer
    match node.initial with
    | some initial =>
      let printer := gsk_sl_printer_append printer " = "
      some (P.gsk_sl_expression_print initial printer)
    | none => some printer

/-- The printer `gsk_sl_node_return_print`. -/
def gsk_sl_node_return_print (P : GskSlPrintCollaborators Ty Expr Val)
    (node : GskSlNode Ty Expr Val) (printer : GskSlPrinter) : GskSlPrinter :=
  let printer := gsk_sl_printer_append printer "return"
  match node.value with
  | some value =>
    let printer := gsk_sl_printer_append printer " "
    P.gsk_sl_expression_print value printer
  | none => printer

/-- The printer `gsk_sl_node_expression_print`. -/
def gsk_sl_node_expression_print (P : GskSlPrintCollaborators Ty Expr Val)
    (node : GskSlNode Ty Expr Val) (printer : GskSlPrinter) : Option GskSlPrinter :=
  match node.expression with
  | none => none
  | some expression => some (P.gsk_sl_expression_print expression printer)

/-- The function `gsk_sl_node_print`: dispatch on the node class. -/
def gsk_sl_node_print (P : GskSlPrintCollaborators Ty Expr Val)
    (node : GskSlNode Ty Expr Val) (printer : GskSlPrinter) : Option GskSlPrinter :=
  match node.klass with
  | .EMPTY => some (gsk_sl_node_empty_print node printer)
  | .DECLARATION => gsk_sl_node_declaration_print P node printer
  | .RETURN => some (gsk_sl_node_return_print P node printer)
  | .EXPRESSION => gsk_sl_node_expression_print P node printer

end Printing

/-! ## SPIR-V emission -/

/-- Sections of the SPIR-V writer; `gskslnode.c` names the code section. -/
inductive GskSpvWriterSection
  | CODE
  | OTHER (index : Nat)
  deriving DecidableEq, Repr

/-- SPIR-V opcodes; `gskslnode.c` names `GSK_SPV_OP_STORE`. -/
inductive GskSpvOp
  | STORE
  | OTHER (code : Nat)
  deriving DecidableEq, Repr

/-- One instruction as handed to `gsk_spv_writer_add`: the section it goes to,
its word count, its opcode and its operand words. -/
structure GskSpvInstruction where
  writer_section : GskSpvWriterSection
  word_count : Nat
  opcode : GskSpvOp
  operands : List Nat
  deriving DecidableEq, Repr

/-- Modelled from the spec: the SPIR-V writer (`gskspvwriter.c` is not part of
the sources at hand).  `ids` is the id allocator with its per-variable memo
table, of which nothing is assumed; `instructions` holds every instruction
appended so far, in emission order (sections are append-only and keep emission
order, so the content of a section is the sublist carrying its tag). -/
structure GskSpvWriter (Ids : Type) where
  ids : Ids
  instructions : List GskSpvInstruction

/-- Modelled from the spec: `append(section, opcode, operandCount,
operands...)` appends one instruction to the named section. -/
def gsk_spv_writer_add {Ids : Type} (writer : GskSpvWriter Ids)
    (writer_section : GskSpvWriterSection) (word_count : Nat) (opcode : GskSpvOp)
    (words : List Nat) : GskSpvWriter Ids :=
  { writer with
    instructions := writer.instructions ++ [⟨writer_section, word_count, opcode, words⟩] }

/-- Emission routines of other files called by the node emitters; each returns
an id and the writer as it left it. -/
structure GskSpvCollaborators (Ty Expr Val Ids : Type) where
  gsk_spv_writer_get_id_for_variable :
    GskSpvWriter Ids → GskSlVariable Ty Val → Nat × GskSpvWriter Ids
  gsk_sl_expression_write_spv : Expr → GskSpvWriter Ids → Nat × GskSpvWriter Ids

section Emission

variable {Ty Expr Val Ids : Type}

/-- The emitter `gsk_sl_node_empty_write_spv`. -/
def gsk_sl_node_empty_write_spv (_node : GskSlNode Ty Expr Val) (writer : GskSpvWriter Ids) :
    Nat × GskSpvWriter Ids :=
  (0, writer)

/-- The emitter `gsk_sl_node_declaration_write_spv`.  The operand array is
built (which emits the initializer) before `gsk_spv_writer_add` runs.  A
declaration node without a variable has no defined behaviour (`none`). -/
def gsk_sl_node_declaration_write_spv (S : GskSpvCollaborators Ty Expr Val Ids)
    (node : GskSlNode Ty Expr Val) (writer : GskSpvWriter Ids) :
    Option (Nat × GskSpvWriter Ids) :=
  match node.variable_ with
  | none => none
  | some v =>
    let r := S.gsk_spv_writer_get_id_for_variable writer v
    let variable_id := r.1
    match node.initial, gsk_sl_variable_get_initial_value v with
    | some initial, none =>
      let e := S.gsk_sl_expression_write_spv initial r.2
      some (variable_id,
        gsk_spv_writer_add e.2 GskSpvWriterSection.CODE 3 GskSpvOp.STORE [variable_id, e.1])
    | _, _ => some (variable_id, r.2)

/-- The emitter `gsk_sl_node_return_write_spv`: `g_assert_not_reached`. -/
def gsk_sl_node_return_write_spv (_node : GskSlNode Ty Expr Val) (_writer : GskSpvWriter Ids) :
    Option (Nat × GskSpvWriter Ids) :=
  none

/-- The emitter `gsk_sl_node_expression_write_spv`. -/
def gsk_sl_node_expression_write_spv (S : GskSpvCollaborators Ty Expr Val Ids)
    (node : GskSlNode Ty Expr Val) (writer : GskSpvWriter Ids) :
    Option (Nat × GskSpvWriter Ids) :=
  match node.expression with
  | none => none
  | some expression => some (S.gsk_sl_expression_write_spv expression writer)

/-- The function `gsk_sl_node_write_spv`: dispatch on the node class.  `none`
stands for an aborted call. -/
def gsk_sl_node_write_spv (S : GskSpvCollaborators Ty Expr Val Ids)
    (node : GskSlNode Ty Expr Val) (writer : GskSpvWriter Ids) :
    Option (Nat × GskSpvWriter Ids) :=
  match node.klass with
  | .EMPTY => some (gsk_sl_node_empty_write_spv node writer)
  | .DECLARATION => gsk_sl_node_declaration_write_spv S node writer
  | .RETURN => gsk_sl_node_return_write_spv node writer
  | .EXPRESSION => gsk_sl_node_expression_write_spv S node writer

end Emission

/-! ## The dispatch in the words of the specification -/

/-- Qualifier keywords as the specification lists them: const, in, out, inout,
invariant, coherent, volatile, restrict, readonly, writeonly. -/
def spec_is_qualifier_keyword : GskSlTokenType → Bool
  | .CONST | .IN | .OUT | .INOUT | .INVARIANT | .COHERENT | .VOLATILE | .RESTRICT
  | .READONLY | .WRITEONLY => true
  | _ => false

/-- Built-in type keywords as the specification lists them: void, bool, int,
uint, float, double, the vectors of size 2 to 4 and the matrices up to 4×4,
non-square ones included. -/
def spec_is_builtin_type_keyword : GskSlTokenType → Bool
  | .VOID | .FLOAT | .DOUBLE | .INT | .UINT | .BOOL
  | .BVEC2 | .BVEC3 | .BVEC4 | .IVEC2 | .IVEC3 | .IVEC4 | .UVEC2 | .UVEC3 | .UVEC4
  | .VEC2 | .VEC3 | .VEC4 | .DVEC2 | .DVEC3 | .DVEC4
  | .MAT2 | .MAT3 | .MAT4 | .DMAT2 | .DMAT3 | .DMAT4
  | .MAT2X2 | .MAT2X3 | .MAT2X4 | .MAT3X2 | .MAT3X3 | .MAT3X4
  | .MAT4X2 | .MAT4X3 | .MAT4X4
  | .DMAT2X2 | .DMAT2X3 | .DMAT2X4 | .DMAT3X2 | .DMAT3X3 | .DMAT3X4
  | .DMAT4X2 | .DMAT4X3 | .DMAT4X4 => true
  | _ => false

section SpecDispatch

variable {Scope Ty Expr Val Fn : Type}

/-- A type-introducing token in the words of the specification: a qualifier
keyword, a built-in type keyword, `struct`, or an identifier that resolves to
a type name in the scope. -/
def spec_is_type_introducing (X : GskSlCollaborators Scope Ty Expr Val Fn) (scope : Scope)
    (token : GskSlToken) : Bool :=
  spec_is_qualifier_keyword token.type || spec_is_builtin_type_keyword token.type ||
    decide (token.type = GskSlTokenType.STRUCT) ||
    (decide (token.type = GskSlTokenType.IDENTIFIER) &&
      (X.gsk_sl_scope_lookup_type scope token.str).isSome)

/-- The expression of a constructor-style call as the `its_a_type` block
obtains it, once decorations and type specifier are parsed. -/
def spec_constructor_call (X : GskSlCollaborators Scope Ty Expr Val Fn) (scope : Scope)
    (preproc : GskSlPreprocessor) (type : Ty) : Expr :=
  let constructor := X.gsk_sl_function_new_constructor type
  if X.gsk_sl_function_is_builtin_constructor constructor then
    (X.gsk_sl_expression_parse_function_call scope preproc none constructor).result
  else
    (X.gsk_sl_expression_parse_function_call scope preproc (some [constructor])
      constructor).result

/-- The statement dispatch in the words of the specification: the class of the
node a statement yields and the expression an expression statement wraps.
`;` and end of input yield Empty, `return` yields Return; a type-introducing
token yields a constructor-call expression statement when the token after the
type specifier is `(` and a Declaration otherwise; everything else yields an
expression statement wrapping a general expression. -/
def spec_statement_variant (X : GskSlCollaborators Scope Ty Expr Val Fn) (scope : Scope)
    (preproc : GskSlPreprocessor) : GskSlNodeClass × Option Expr :=
  let token := gsk_sl_preprocessor_get preproc
  if token.type = GskSlTokenType.SEMICOLON then (.EMPTY, none)
  else if token.type = GskSlTokenType.EOF then (.EMPTY, none)
  else if token.type = GskSlTokenType.RETURN then (.RETURN, none)
  else if spec_is_type_introducing X scope token then
    let d := X.gsk_sl_decoration_list_parse scope preproc
    let t := X.gsk_sl_type_new_parse d.scope d.preproc
    if (gsk_sl_preprocessor_get t.preproc).type = GskSlTokenType.LEFT_PAREN then
      (.EXPRESSION, some (spec_constructor_call X t.scope t.preproc t.result))
    else (.DECLARATION, none)
  else (.EXPRESSION, some (X.gsk_sl_expression_parse scope preproc).result)

/-- The invariant of Return nodes as the specification states it: the value of
the returned node is present exactly when the scope has a non-void return
type, a value expression was supplied, and its type converts to the return
type. -/
def spec_return_value_invariant (X : GskSlCollaborators Scope Ty Expr Val Fn)
    (scope : Scope) (preproc : GskSlPreprocessor) : Prop :=
  let r := gsk_sl_node_parse_statement X scope preproc
  let supplied := (gsk_sl_preprocessor_get (gsk_sl_preprocessor_consume preproc)).type ≠
    GskSlTokenType.SEMICOLON
  let e := X.gsk_sl_expression_parse scope (gsk_sl_preprocessor_consume preproc)
  ∀ node, r.result = some node → node.klass = GskSlNodeClass.RETURN →
    (node.value.isSome = true ↔
      ∃ rt, X.gsk_sl_scope_get_return_type r.scope = some rt ∧
        X.gsk_sl_type_equal rt (X.gsk_sl_type_get_scalar GskSlScalarType.VOID) = false ∧
        supplied ∧
        X.gsk_sl_type_can_convert rt (X.gsk_sl_expression_get_return_type e.result) = true)

end SpecDispatch

/-! ## A small instance of the collaborators

Scalar types only, expressions of one token, and a scope that records its
return type, its type names and its variables.  It serves to evaluate the
functions above on concrete token streams. -/

/-- Scope of the small instance. -/
structure SampleScope where
  return_type : Option GskSlScalarType
  types : List (String × GskSlScalarType)
  vars : List (GskSlVariable GskSlScalarType String)
  deriving DecidableEq, Repr

/-- Expression of the small instance: a single token. -/
structure SampleExpression where
  token : GskSlToken
  deriving DecidableEq, Repr

/-- Type of a one-token expression: `OTHER 0` is an integer literal, `OTHER 1`
a floating-point literal, anything else counts as boolean. -/
def SampleExpression.type (e : SampleExpression) : GskSlScalarType :=
  match e.token.type with
  | .OTHER 0 => .INT
  | .OTHER 1 => .FLOAT
  | _ => .BOOL

/-- Implicit conversions of the small instance: identity, `int` to `float` or
`double`, `float` to `double`. -/
def sample_can_convert (target source : GskSlScalarType) : Bool :=
  match target, source with
  | .FLOAT, .INT | .DOUBLE, .INT | .DOUBLE, .FLOAT => true
  | t, s => decide (t = s)

/-- Spelling of the scalar types. -/
def sample_type_name : GskSlScalarType → String
  | .VOID => "void" | .FLOAT => "float" | .DOUBLE => "double"
  | .INT => "int" | .UINT => "uint" | .BOOL => "bool"

/-- Type specifier of the small instance: one scalar keyword. -/
def sample_type_of_token : GskSlTokenType → GskSlScalarType
  | .FLOAT => .FLOAT | .DOUBLE => .DOUBLE | .INT => .INT | .UINT => .UINT | .BOOL => .BOOL
  | _ => .VOID

/-- Consume the current token and make it an expression. -/
def sample_expression_parse (scope : SampleScope) (preproc : GskSlPreprocessor) :
    Parsed SampleExpression SampleScope :=
  { result := ⟨gsk_sl_preprocessor_get preproc⟩, scope := scope,
    preproc := gsk_sl_preprocessor_consume preproc }

/-- An optional `const` in front of a declaration. -/
def sample_decoration_list_parse (scope : SampleScope) (preproc : GskSlPreprocessor) :
    Parsed GskSlDecorations SampleScope :=
  if gsk_sl_token_is (gsk_sl_preprocessor_get preproc) GskSlTokenType.CONST then
    { result := ⟨fun d => match d with
        | .CONST => ⟨true, 0⟩
        | .CALLER_ACCESS => ⟨false, 0⟩⟩
      scope := scope, preproc := gsk_sl_preprocessor_consume preproc }
  else
    { result := ⟨fun _ => ⟨false, 0⟩⟩, scope := scope, preproc := preproc }

/-- The small instance of the collaborators. -/
def sampleCollaborators :
    GskSlCollaborators SampleScope GskSlScalarType SampleExpression String GskSlScalarType where
  gsk_sl_scope_lookup_type := fun scope name => scope.types.lookup name
  gsk_sl_scope_get_return_type := fun scope => scope.return_type
  gsk_sl_scope_add_variable := fun scope v => { scope with vars := v :: scope.vars }
  gsk_sl_type_get_scalar := fun t => t
  gsk_sl_type_equal := fun a b => decide (a = b)
  gsk_sl_type_can_convert := sample_can_convert
  gsk_sl_type_get_name := sample_type_name
  gsk_sl_type_new_parse := fun scope preproc =>
    { result := sample_type_of_token (gsk_sl_preprocessor_get preproc).type, scope := scope,
      preproc := gsk_sl_preprocessor_consume preproc }
  gsk_sl_decoration_list_parse := sample_decoration_list_parse
  gsk_sl_expression_parse := sample_expression_parse
  gsk_sl_expression_parse_assignment := sample_expression_parse
  gsk_sl_expression_parse_function_call := fun scope preproc _ _ =>
    sample_expression_parse scope (gsk_sl_preprocessor_consume preproc)
  gsk_sl_expression_get_return_type := SampleExpression.type
  gsk_sl_expression_get_constant := fun e =>
    match e.token.type with
    | .OTHER 0 => some e.token.str
    | _ => none
  gsk_sl_value_new_convert := fun v _ => v
  gsk_sl_function_new_constructor := fun t => t
  gsk_sl_function_is_builtin_constructor := fun _ => true

/-- Tokens used in the examples. -/
def tok_semicolon : GskSlToken := ⟨GskSlTokenType.SEMICOLON, ";"⟩

/-- The `return` keyword token. -/
def tok_return : GskSlToken := ⟨GskSlTokenType.RETURN, "return"⟩

/-- The `=` token. -/
def tok_equal : GskSlToken := ⟨GskSlTokenType.EQUAL, "="⟩

/-- An identifier token. -/
def tok_ident (name : String) : GskSlToken := ⟨GskSlTokenType.IDENTIFIER, name⟩

/-- An integer literal token. -/
def tok_intlit (digits : String) : GskSlToken := ⟨GskSlTokenType.OTHER 0, digits⟩

/-- A floating-point literal token. -/
def tok_floatlit (digits : String) : GskSlToken := ⟨GskSlTokenType.OTHER 1, digits⟩

/-- A scope inside a function with the given return type. -/
def sample_scope (return_type : Option GskSlScalarType) : SampleScope :=
  { return_type := return_type, types := [], vars := [] }

/-- Emission of the small instance: the id state is a counter; a variable gets
the next id, an expression gets the next id and emits one instruction that
loads it. -/
def sampleSpvCollaborators :
    GskSpvCollaborators GskSlScalarType SampleExpression String Nat where
  gsk_spv_writer_get_id_for_variable := fun writer _ =>
    (writer.ids + 1, { writer with ids := writer.ids + 1 })
  gsk_sl_expression_write_spv := fun _ writer =>
    (writer.ids + 1,
      gsk_spv_writer_add { writer with ids := writer.ids + 1 } GskSpvWriterSection.CODE 2
        (GskSpvOp.OTHER 0) [writer.ids + 1])

/-! ## The GLSL shader builder (`gsk/gl/gskshaderbuilder.c`)

The builder is a record of its fields.  What the file calls outside itself
(`g_build_filename`, `g_resources_lookup_data`, the GL entry points) is the
environment: a record of answer functions, together with the list of calls
made so far, in order.  A GL answer may depend on every call made before it.
Errors stored through the `GError **` argument are kept in order as well. -/

/-- The fields of `struct _GskShaderBuilder` used by the file.  `defines` is
the pointer array of strings, as the list of its `len` entries. -/
structure GskShaderBuilder where
  resource_base_path : Option String
  vertex_preamble : Option String
  fragment_preamble : Option String
  version : Int
  defines : List String
  deriving DecidableEq, Repr

/-- A freshly created builder (`gsk_shader_builder_new`): the object is
zero-filled and `gsk_shader_builder_init` gives it an empty array. -/
def gsk_shader_builder_init : GskShaderBuilder :=
  { resource_base_path := none, vertex_preamble := none, fragment_preamble := none,
    version := 0, defines := [] }

/-- The setter `gsk_shader_builder_set_resource_base_path`. -/
def gsk_shader_builder_set_resource_base_path (builder : GskShaderBuilder)
    (base_path : Option String) : GskShaderBuilder :=
  { builder with resource_base_path := base_path }

/-- The setter `gsk_shader_builder_set_vertex_preamble`. -/
def gsk_shader_builder_set_vertex_preamble (builder : GskShaderBuilder)
    (vertex_preamble : Option String) : GskShaderBuilder :=
  { builder with vertex_preamble := vertex_preamble }

/-- The setter `gsk_shader_builder_set_fragment_preamble`. -/
def gsk_shader_builder_set_fragment_preamble (builder : GskShaderBuilder)
    (fragment_preamble : Option String) : GskShaderBuilder :=
  { builder with fragment_preamble := fragment_preamble }

/-- The setter `gsk_shader_builder_set_version`. -/
def gsk_shader_builder_set_version (builder : GskShaderBuilder) (version : Int) :
    GskShaderBuilder :=
  { builder with version := version }

/-- The function `gsk_shader_builder_add_define`: the two `g_return_if_fail`
guards reject a `NULL` or empty name or value; otherwise name and value are
appended to the array, in this order. -/
def gsk_shader_builder_add_define (builder : GskShaderBuilder)
    (define_name define_value : Option String) : GskShaderBuilder :=
  match define_name with
  | none => builder
  | some name =>
    if name = "" then builder
    else
      match define_value with
      | none => builder
      | some value =>
        if value = "" then builder
        else { builder with defines := builder.defines ++ [name] ++ [value] }

/-- Largest value of a C `int`. -/
def G_MAXINT : Nat := 2 ^ 31 - 1

/-- Conversion of a `guint` (or `GLuint`) to `int`: the value modulo `2 ^ 32`,
read as a two's complement number. -/
def int_of_guint (n : Nat) : Int :=
  if n % 2 ^ 32 < 2 ^ 31 then ((n % 2 ^ 32 : Nat) : Int) else ((n % 2 ^ 32 : Nat) : Int) - 2 ^ 32

/-- Conversion of an `int` to `guint` (or `GLuint`): the value modulo
`2 ^ 32`. -/
def guint_of_int (i : Int) : Nat :=
  (i % 2 ^ 32).toNat

/-- The read `g_ptr_array_index (array, i)`; `none` when the index is outside
the `len` entries of the array. -/
def g_ptr_array_index (array : List String) (i : Nat) : Option String :=
  array[i]?

/-- The define loop of `gsk_shader_builder_compile_shader`, started at index
`i` with the text `code`.  The counter `i` is an `int`; it is compared with the
`guint` length after conversion to `guint`, and `len - 2` is computed in
`guint`.  The result is the text after the loop and the number of times the
body has run (a count kept for the proofs, not a variable of the C code).
`none` stands for a read outside the array or an overflow of the `int`
counter.  The first argument bounds the number of iterations. -/
def gsk_shader_builder_define_loop (defines : List String) :
    Nat → Nat → String → Nat → Option (String × Nat)
  | 0, i, code, count =>
    if i % 2 ^ 32 < defines.length % 2 ^ 32 then none else some (code, count)
  | fuel + 1, i, code, count =>
    if i % 2 ^ 32 < defines.length % 2 ^ 32 then
      match g_ptr_array_index defines i, g_ptr_array_index defines (i + 1) with
      | some name, some value =>
        let code := code ++ "#define" ++ " " ++ name ++ " " ++ value ++ "\n"
        let code :=
          if i % 2 ^ 32 = (defines.length % 2 ^ 32 + 2 ^ 32 - 2) % 2 ^ 32 then code ++ "\n"
          else code
        if i + 2 ≤ G_MAXINT then
          gsk_shader_builder_define_loop defines fuel (i + 2) code (count + 1)
        else none
      | _, _ => none
    else some (code, count)

/-- Codes of the errors the file deals with: the two `GDK_GL_ERROR` codes it
sets itself, and any other code (set by the resource lookup). -/
inductive GErrorCode
  | GDK_GL_ERROR_COMPILATION_FAILED
  | GDK_GL_ERROR_LINK_FAILED
  | OTHER (code : Nat)
  deriving DecidableEq, Repr

/-- An error as stored through a `GError **`: code and message. -/
structure GError where
  code : GErrorCode
  message : String
  deriving DecidableEq, Repr

/-- A call that leaves the file: a resource lookup with its path, or a GL
entry point with its arguments (for the two `glCreate` calls, the object name
they returned).  Object names are `GLuint` values. -/
inductive GskExternalCall
  | g_resources_lookup_data (path : Option String)
  | glCreateShader (shader_type : Nat) (name : Nat)
  | glShaderSource (shader : Nat) (source : String)
  | glCompileShader (shader : Nat)
  | glDeleteShader (shader : Nat)
  | glCreateProgram (name : Nat)
  | glAttachShader (program shader : Nat)
  | glLinkProgram (program : Nat)
  | glDetachShader (program shader : Nat)
  | glDeleteProgram (program : Nat)
  deriving DecidableEq, Repr

/-- What surrounds the shader builder and is not part of the library: GLib
(`g_build_filename` with one or two path elements, `g_resources_lookup_data`,
which returns the data or sets an error) and the GL driver.  A GL answer is a
function of the calls made so far: the name a `glCreate` call returns, the
compile or link status read back with `glGet...iv` (`false` is `GL_FALSE`),
and the info log copied into the buffer. -/
structure GskShaderEnvironment where
  g_build_filename : String → Option String → String
  g_resources_lookup_data : Option String → Except GError String
  glCreateShader : List GskExternalCall → Nat → Nat
  compile_status : List GskExternalCall → Nat → Bool
  shader_info_log : List GskExternalCall → Nat → String
  glCreateProgram : List GskExternalCall → Nat
  link_status : List GskExternalCall → Nat → Bool
  program_info_log : List GskExternalCall → Nat → String

/-- The state a call works on: the external calls made so far and the errors
stored so far through the `GError **` argument. -/
structure GskShaderState where
  calls : List GskExternalCall
  errors : List GError
  deriving DecidableEq, Repr

/-- Record an external call. -/
def GskShaderState.call (st : GskShaderState) (c : GskExternalCall) : GskShaderState :=
  { st with calls := st.calls ++ [c] }

/-- The GL constant `GL_VERTEX_SHADER`. -/
def GL_VERTEX_SHADER : Nat := 0x8B31

/-- The GL constant `GL_FRAGMENT_SHADER`. -/
def GL_FRAGMENT_SHADER : Nat := 0x8B30

/-- The path `lookup_shader_code` builds: `g_build_filename (base_path,
shader_file, NULL)` when there is a base path, a copy of `shader_file`
otherwise. -/
def lookup_shader_code_path (E : GskShaderEnvironment) (base_path shader_file : Option String) :
    Option String :=
  match base_path with
  | some base => some (E.g_build_filename base shader_file)
  | none => shader_file

/-- The function `lookup_shader_code`: build the path, look the resource up,
and append its text to `code`.  The result is the returned boolean, the text
and the state. -/
def lookup_shader_code (E : GskShaderEnvironment) (code : String) (base_path : Option String)
    (shader_file : Option String) (st : GskShaderState) : Bool × String × GskShaderState :=
  let path : Option String := lookup_shader_code_path E base_path shader_file
  let st := st.call (GskExternalCall.g_resources_lookup_data path)
  match E.g_resources_lookup_data path with
  | Except.error e => (false, code, { st with errors := st.errors ++ [e] })
  | Except.ok source => (true, code ++ source, st)

/-- The text `gsk_shader_builder_compile_shader` has assembled when it reaches
the first resource lookup: the version line and the define lines.  `none` when
the define loop has no defined result. -/
def gsk_shader_builder_compile_shader_header (builder : GskShaderBuilder) : Option String :=
  let code := ""
  let code :=
    if builder.version > 0 then code ++ ("#version " ++ toString builder.version ++ "\n") ++ "\n"
    else code
  (gsk_shader_builder_define_loop builder.defines builder.defines.length 0 code 0).map
    (fun r => r.1)

/-- The function `gsk_shader_builder_compile_shader`.  The result is the
returned `int` and the state; `none` when the define loop has no defined
result.  The debug print is left out. -/
def gsk_shader_builder_compile_shader (E : GskShaderEnvironment) (builder : GskShaderBuilder)
    (shader_type : Nat) (shader_preamble shader_source : Option String)
    (st : GskShaderState) : Option (Int × GskShaderState) :=
  match gsk_shader_builder_compile_shader_header builder with
  | none => none
  | some code =>
    match lookup_shader_code E code builder.resource_base_path shader_preamble st with
    | (false, _, st) => some (-1, st)
    | (true, code, st) =>
      let code := code ++ "\n"
      match lookup_shader_code E code builder.resource_base_path shader_source st with
      | (false, _, st) => some (-1, st)
      | (true, source, st) =>
        let name := E.glCreateShader st.calls shader_type
        let shader_id : Int := int_of_guint name
        let st := st.call (GskExternalCall.glCreateShader shader_type name)
        let st := st.call (GskExternalCall.glShaderSource (guint_of_int shader_id) source)
        let st := st.call (GskExternalCall.glCompileShader (guint_of_int shader_id))
        if E.compile_status st.calls (guint_of_int shader_id) = false then
          let buffer := E.shader_info_log st.calls (guint_of_int shader_id)
          let st := { st with errors := st.errors ++
            [GError.mk GErrorCode.GDK_GL_ERROR_COMPILATION_FAILED
              ("Compilation failure in "
                ++ (if shader_type = GL_VERTEX_SHADER then "vertex" else "fragment")
                ++ " shader:\n" ++ buffer)] }
          let st := st.call (GskExternalCall.glDeleteShader (guint_of_int shader_id))
          some (-1, st)
        else some (shader_id, st)

/-- The part of `gsk_shader_builder_create_program` from `glCreateProgram` to
the end, with both shaders compiled. -/
def gsk_shader_builder_create_program_link (E : GskShaderEnvironment)
    (vertex_id fragment_id : Int) (st : GskShaderState) : Int × GskShaderState :=
  let name := E.glCreateProgram st.calls
  let program_id : Int := int_of_guint name
  let st := st.call (GskExternalCall.glCreateProgram name)
  let st := st.call
    (GskExternalCall.glAttachShader (guint_of_int program_id) (guint_of_int vertex_id))
  let st := st.call
    (GskExternalCall.glAttachShader (guint_of_int program_id) (guint_of_int fragment_id))
  let st := st.call (GskExternalCall.glLinkProgram (guint_of_int program_id))
  let linked : Int × GskShaderState :=
    if E.link_status st.calls (guint_of_int program_id) = false then
      let buffer := E.program_info_log st.calls (guint_of_int program_id)
      let st := { st with errors := st.errors ++
        [GError.mk GErrorCode.GDK_GL_ERROR_LINK_FAILED
          ("Linking failure in shader:\n" ++ buffer)] }
      let st := st.call (GskExternalCall.glDeleteProgram (guint_of_int program_id))
      (-1, st)
    else (program_id, st)
  let program_id := linked.1
  let st := linked.2
  let st :=
    if vertex_id > 0 then
      (st.call (GskExternalCall.glDetachShader (guint_of_int program_id)
        (guint_of_int vertex_id))).call (GskExternalCall.glDeleteShader (guint_of_int vertex_id))
    else st
  let st :=
    if fragment_id > 0 then
      (st.call (GskExternalCall.glDetachShader (guint_of_int program_id)
        (guint_of_int fragment_id))).call
        (GskExternalCall.glDeleteShader (guint_of_int fragment_id))
    else st
  (program_id, st)

/-- The function `gsk_shader_builder_create_program`.  A `NULL` shader name is
rejected by `g_return_val_if_fail`.  The result is the returned `int` and the
state; `none` when the define loop has no defined result. -/
def gsk_shader_builder_create_program (E : GskShaderEnvironment) (builder : GskShaderBuilder)
    (vertex_shader fragment_shader : Option String) (st : GskShaderState) :
    Option (Int × GskShaderState) :=
  match vertex_shader, fragment_shader with
  | none, _ => some (-1, st)
  | some _, none => some (-1, st)
  | some vertex_shader, some fragment_shader =>
    match gsk_shader_builder_compile_shader E builder GL_VERTEX_SHADER builder.vertex_preamble
        (some vertex_shader) st with
    | none => none
    | some (vertex_id, st) =>
      if vertex_id < 0 then some (-1, st)
      else
        match gsk_shader_builder_compile_shader E builder GL_FRAGMENT_SHADER
            builder.fragment_preamble (some fragment_shader) st with
        | none => none
        | some (fragment_id, st) =>
          if fragment_id < 0 then
            some (-1, st.call (GskExternalCall.glDeleteShader (guint_of_int vertex_id)))
          else some (gsk_shader_builder_create_program_link E vertex_id fragment_id st)

/-! ### The builder in the words of the specification -/

/-- The calls of `gsk_shader_builder_add_define` that are accepted: name and
value both given and both non-empty. -/
def spec_accepted_defines (calls : List (Option String × Option String)) :
    List (String × String) :=
  calls.filterMap (fun c =>
    match c with
    | (some name, some value) => if name ≠ "" ∧ value ≠ "" then some (name, value) else none
    | _ => none)

/-- The flat list name1, value1, name2, value2, ... of a list of defines. -/
def spec_flat_defines (defines : List (String × String)) : List String :=
  defines.flatMap (fun d => [d.1, d.2])

/-- The builder after a sequence of `gsk_shader_builder_add_define` calls on a
freshly created builder. -/
def builder_after_defines (calls : List (Option String × Option String)) : GskShaderBuilder :=
  calls.foldl (fun builder c => gsk_shader_builder_add_define builder c.1 c.2)
    gsk_shader_builder_init

/-- The define lines in the words of the specification: for each define, in
order, the line `#define <name> <value>` followed by a newline. -/
def spec_define_lines : List (String × String) → String
  | [] => ""
  | d :: rest => "#define " ++ d.1 ++ " " ++ d.2 ++ "\n" ++ spec_define_lines rest

/-- The source text in the words of the specification: `#version <v>` and two
newlines when `v > 0`; the define lines, and one blank line after the last of
them (nothing when there is no define); the preamble text, one newline, the
body text. -/
def spec_shader_source (version : Int) (defines : List (String × String))
    (preamble body : String) : String :=
  (if version > 0 then "#version " ++ toString version ++ "\n\n" else "")
    ++ spec_define_lines defines
    ++ (if defines = [] then "" else "\n")
    ++ preamble ++ "\n" ++ body

/-- The two resource lookups of one shader stage: preamble, then body. -/
def spec_stage_lookups (E : GskShaderEnvironment) (builder : GskShaderBuilder)
    (shader_preamble shader_source : Option String) : List GskExternalCall :=
  [GskExternalCall.g_resources_lookup_data
      (lookup_shader_code_path E builder.resource_base_path shader_preamble),
    GskExternalCall.g_resources_lookup_data
      (lookup_shader_code_path E builder.resource_base_path shader_source)]

/-- The GL calls that hand a source text to the compiler: create the shader
(the driver answers with `name`), set its source, compile it. -/
def spec_stage_compile (shader_type name : Nat) (source : String) : List GskExternalCall :=
  [GskExternalCall.glCreateShader shader_type name,
    GskExternalCall.glShaderSource (name % 2 ^ 32) source,
    GskExternalCall.glCompileShader (name % 2 ^ 32)]

/-- A small environment: two resources below `/shaders`, object names between
1 and 1000 that follow the number of calls made, compilation and linking
succeed. -/
def sampleShaderEnvironment : GskShaderEnvironment where
  g_build_filename := fun base file =>
    match file with
    | some f => base ++ "/" ++ f
    | none => base
  g_resources_lookup_data := fun path =>
    if path = some "/shaders/preamble.glsl" then Except.ok "precision highp float;"
    else if path = some "/shaders/blit.glsl" then Except.ok "void main ();"
    else Except.error ⟨GErrorCode.OTHER 0, "The resource does not exist"⟩
  glCreateShader := fun calls _ => calls.length % 1000 + 1
  compile_status := fun _ _ => true
  shader_info_log := fun _ _ => ""
  glCreateProgram := fun calls => calls.length % 1000 + 1
  link_status := fun _ _ => true
  program_info_log := fun _ _ => ""

/-- A small builder: base path `/shaders`, both preambles `preamble.glsl`,
version 150, one define. -/
def sampleShaderBuilder : GskShaderBuilder :=
  { resource_base_path := some "/shaders", vertex_preamble := some "preamble.glsl",
    fragment_preamble := some "preamble.glsl", version := 150,
    defines := ["GSK_GL3", "1"] }

/-- A variant of the small environment whose driver names every shader
`2 ^ 31`. -/
def sampleShaderEnvironmentLargeNames : GskShaderEnvironment :=
  { sampleShaderEnvironment with glCreateShader := fun _ _ => 2 ^ 31 }

/-! ## Properties of the statement parser -/

section Theorems

variable {Scope Ty Expr Val Fn Ids : Type}

theorem parse_statement_end_result (node : GskSlNode Ty Expr Val) (scope : Scope)
    (preproc : GskSlPreprocessor) :
    (gsk_sl_node_parse_statement_end node scope preproc).result = some node := rfl

theorem its_a_type_node (X : GskSlCollaborators Scope Ty Expr Val Fn) (scope : Scope)
    (preproc : GskSlPreprocessor) :
    let node := (gsk_sl_node_parse_statement_its_a_type X scope preproc).result
    node.ref_count = 1 ∧ (node.klass = .EXPRESSION ∨ node.klass = .DECLARATION) ∧
      node.payload_matches_class := by
  simp only [gsk_sl_node_parse_statement_its_a_type]
  split
  · simp [gsk_sl_node_alloc, GskSlNode.payload_matches_class]
  · simp [gsk_sl_node_parse_declaration, gsk_sl_node_alloc, GskSlNode.payload_matches_class]

theorem return_node (X : GskSlCollaborators Scope Ty Expr Val Fn) (scope : Scope)
    (preproc : GskSlPreprocessor) :
    let node := (gsk_sl_node_parse_statement_return X scope preproc).result
    node.ref_count = 1 ∧ node.klass = .RETURN ∧ node.payload_matches_class := by
  simp [gsk_sl_node_parse_statement_return, gsk_sl_node_alloc,
    GskSlNode.payload_matches_class]

theorem default_node (X : GskSlCollaborators Scope Ty Expr Val Fn) (scope : Scope)
    (preproc : GskSlPreprocessor) :
    let node := (gsk_sl_node_parse_statement_default X scope preproc).result
    node.ref_count = 1 ∧ node.klass = .EXPRESSION ∧ node.payload_matches_class := by
  simp [gsk_sl_node_parse_statement_default, gsk_sl_node_alloc,
    GskSlNode.payload_matches_class]

/-- C1: for every scope and every token stream, well-formed or not and the
empty stream included, `gsk_sl_node_parse_statement` returns a non-null node
with one reference; its class is one of Empty, Declaration, Return and
Expression, and it carries the payload of that class. -/
theorem parse_statement_returns_node (X : GskSlCollaborators Scope Ty Expr Val Fn)
    (scope : Scope) (preproc : GskSlPreprocessor) :
    ∃ node : GskSlNode Ty Expr Val,
      (gsk_sl_node_parse_statement X scope preproc).result = some node ∧
      node.ref_count = 1 ∧
      (node.klass = .EMPTY ∨ node.klass = .DECLARATION ∨ node.klass = .RETURN ∨
        node.klass = .EXPRESSION) ∧
      node.payload_matches_class := by
  have hT := its_a_type_node X scope preproc
  have hR := return_node X scope preproc
  have hD := default_node X scope preproc
  simp only at hT hR hD
  simp only [gsk_sl_node_parse_statement]
  split
  · exact ⟨_, rfl, rfl, Or.inl rfl, by simp [gsk_sl_node_alloc, GskSlNode.payload_matches_class]⟩
  · exact ⟨_, rfl, rfl, Or.inl rfl, by simp [gsk_sl_node_alloc, GskSlNode.payload_matches_class]⟩
  · refine ⟨_, rfl, hT.1, ?_, hT.2.2⟩
    rcases hT.2.1 with h | h <;> simp [h]
  · exact ⟨_, rfl, hR.1, by simp [hR.2.1], hR.2.2⟩
  · split
    · refine ⟨_, rfl, hT.1, ?_, hT.2.2⟩
      rcases hT.2.1 with h | h <;> simp [h]
    · exact ⟨_, rfl, hD.1, by simp [hD.2.1], hD.2.2⟩
  · exact ⟨_, rfl, hD.1, by simp [hD.2.1], hD.2.2⟩

theorem its_a_type_variant (X : GskSlCollaborators Scope Ty Expr Val Fn) (scope : Scope)
    (preproc : GskSlPreprocessor) :
    let node := (gsk_sl_node_parse_statement_its_a_type X scope preproc).result
    let d := X.gsk_sl_decoration_list_parse scope preproc
    let t := X.gsk_sl_type_new_parse d.scope d.preproc
    (node.klass, node.expression) =
      if (gsk_sl_preprocessor_get t.preproc).type = GskSlTokenType.LEFT_PAREN then
        (.EXPRESSION, some (spec_constructor_call X t.scope t.preproc t.result))
      else (.DECLARATION, none) := by
  simp only [gsk_sl_node_parse_statement_its_a_type, spec_constructor_call]
  split
  · split <;> simp [gsk_sl_node_alloc]
  · simp [gsk_sl_node_parse_declaration, gsk_sl_node_alloc]

/-- C5: the class of the node returned by `gsk_sl_node_parse_statement`, and
the expression it wraps, are those the specification assigns to the leading
token: Empty for `;` (and for end of input), Return for `return`, for a
type-introducing token (qualifier keyword, built-in type keyword, `struct`,
identifier naming a type) a constructor-call expression statement when `(`
follows the type specifier and a Declaration otherwise, and for every other
token (an identifier that names no type included) an expression statement
wrapping `gsk_sl_expression_parse`. -/
theorem parse_statement_variant (X : GskSlCollaborators Scope Ty Expr Val Fn)
    (scope : Scope) (preproc : GskSlPreprocessor) :
    (gsk_sl_node_parse_statement X scope preproc).result.map
        (fun node => (node.klass, node.expression)) =
      some (spec_statement_variant X scope preproc) := by
  have hT := its_a_type_variant X scope preproc
  simp only at hT
  cases h : (gsk_sl_preprocessor_get preproc).type <;>
    simp [gsk_sl_node_parse_statement, spec_statement_variant, h,
      gsk_sl_node_parse_statement_case, spec_is_type_introducing, spec_is_qualifier_keyword,
      spec_is_builtin_type_keyword, parse_statement_end_result, hT,
      gsk_sl_node_parse_statement_default, gsk_sl_node_parse_statement_return,
      gsk_sl_node_alloc]
  by_cases hl : (X.gsk_sl_scope_lookup_type scope (gsk_sl_preprocessor_get preproc).str).isSome
  · simp [hl, parse_statement_end_result, hT]
  · simp [hl, parse_statement_end_result]

theorem consume_errors (preproc : GskSlPreprocessor) :
    (gsk_sl_preprocessor_consume preproc).errors = preproc.errors := rfl

theorem consume_tokens (preproc : GskSlPreprocessor) :
    (gsk_sl_preprocessor_consume preproc).tokens = preproc.tokens.tail := rfl

theorem error_errors (preproc : GskSlPreprocessor) (c : GskSlErrorCategory) (m : String) :
    (gsk_sl_preprocessor_error preproc c m).errors = preproc.errors ++ [⟨c, m⟩] := rfl

theorem error_tokens (preproc : GskSlPreprocessor) (c : GskSlErrorCategory) (m : String) :
    (gsk_sl_preprocessor_error preproc c m).tokens = preproc.tokens := rfl

theorem error_get (preproc : GskSlPreprocessor) (c : GskSlErrorCategory) (m : String) :
    gsk_sl_preprocessor_get (gsk_sl_preprocessor_error preproc c m) =
      gsk_sl_preprocessor_get preproc := rfl

theorem sync_errors (preproc : GskSlPreprocessor) (t : GskSlTokenType) :
    (gsk_sl_preprocessor_sync preproc t).errors = preproc.errors := rfl

theorem return_without_value (X : GskSlCollaborators Scope Ty Expr Val Fn)
    (scope : Scope) (preproc : GskSlPreprocessor)
    (h : (gsk_sl_preprocessor_get (gsk_sl_preprocessor_consume preproc)).type =
      GskSlTokenType.SEMICOLON) :
    (gsk_sl_node_parse_statement_return X scope preproc).result =
        gsk_sl_node_alloc GskSlNodeClass.RETURN ∧
      (gsk_sl_node_parse_statement_return X scope preproc).scope = scope := by
  simp [gsk_sl_node_parse_statement_return, gsk_sl_token_is, h, gsk_sl_node_alloc]

theorem return_with_value (X : GskSlCollaborators Scope Ty Expr Val Fn)
    (scope : Scope) (preproc : GskSlPreprocessor)
    (h : (gsk_sl_preprocessor_get (gsk_sl_preprocessor_consume preproc)).type ≠
      GskSlTokenType.SEMICOLON) :
    (gsk_sl_node_parse_statement_return X scope preproc).result =
        { (gsk_sl_node_alloc GskSlNodeClass.RETURN : GskSlNode Ty Expr Val) with
          value := some (X.gsk_sl_expression_parse scope
            (gsk_sl_preprocessor_consume preproc)).result } ∧
      (gsk_sl_node_parse_statement_return X scope preproc).scope =
        (X.gsk_sl_expression_parse scope (gsk_sl_preprocessor_consume preproc)).scope := by
  simp [gsk_sl_node_parse_statement_return, gsk_sl_token_is, h, gsk_sl_node_alloc]

theorem parse_statement_of_return (X : GskSlCollaborators Scope Ty Expr Val Fn)
    (scope : Scope) (preproc : GskSlPreprocessor)
    (hret : (gsk_sl_preprocessor_get preproc).type = GskSlTokenType.RETURN) :
    gsk_sl_node_parse_statement X scope preproc =
      gsk_sl_node_parse_statement_end
        (gsk_sl_node_parse_statement_return X scope preproc).result
        (gsk_sl_node_parse_statement_return X scope preproc).scope
        (gsk_sl_node_parse_statement_return X scope preproc).preproc := by
  simp [gsk_sl_node_parse_statement, hret, gsk_sl_node_parse_statement_case]

theorem parse_statement_end_semicolon (node : GskSlNode Ty Expr Val) (scope : Scope)
    (preproc : GskSlPreprocessor)
    (h : (gsk_sl_preprocessor_get preproc).type = GskSlTokenType.SEMICOLON) :
    (gsk_sl_node_parse_statement_end node scope preproc).preproc =
      gsk_sl_preprocessor_consume preproc := by
  simp [gsk_sl_node_parse_statement_end, gsk_sl_token_is, h]

theorem parse_statement_end_no_semicolon (node : GskSlNode Ty Expr Val) (scope : Scope)
    (preproc : GskSlPreprocessor)
    (h : (gsk_sl_preprocessor_get preproc).type ≠ GskSlTokenType.SEMICOLON) :
    (gsk_sl_node_parse_statement_end node scope preproc).preproc =
      gsk_sl_preprocessor_consume
        (gsk_sl_preprocessor_sync
          (gsk_sl_preprocessor_error preproc GskSlErrorCategory.SYNTAX
            "No semicolon at end of statement.")
          GskSlTokenType.SEMICOLON) := by
  simp [gsk_sl_node_parse_statement_end, gsk_sl_token_is, h]

/-- C2: diagnostics of the `return` branch of `gsk_sl_node_parse_statement`,
for a stream whose current token is `return` and every scope.  (a) `return;`
with a void return type: the Return node has no value and no diagnostic is
recorded.  (b) `return;` with a non-void return type: exactly one TypeMismatch
diagnostic.  (c) `return <expr>;` with a void return type: exactly one
TypeMismatch diagnostic, added to those of the expression parser.  (d)
`return <expr>;` where the scope has no return type: exactly one Scope
diagnostic.  In all four cases the result is a Return node.  In (c) and (d)
the return type is read from the scope as the expression parser leaves it. -/
theorem return_statement_diagnostics (X : GskSlCollaborators Scope Ty Expr Val Fn)
    (scope : Scope) (preproc : GskSlPreprocessor)
    (hret : (gsk_sl_preprocessor_get preproc).type = GskSlTokenType.RETURN) :
    let void := X.gsk_sl_type_get_scalar GskSlScalarType.VOID
    let p1 := gsk_sl_preprocessor_consume preproc
    let e := X.gsk_sl_expression_parse scope p1
    let r := gsk_sl_node_parse_statement X scope preproc
    let return_node : GskSlNode Ty Expr Val := gsk_sl_node_alloc GskSlNodeClass.RETURN
    (∀ rt, (gsk_sl_preprocessor_get p1).type = GskSlTokenType.SEMICOLON →
        X.gsk_sl_scope_get_return_type scope = some rt →
        X.gsk_sl_type_equal rt void = true →
        r.result = some return_node ∧ r.preproc.errors = preproc.errors) ∧
    (∀ rt, (gsk_sl_preprocessor_get p1).type = GskSlTokenType.SEMICOLON →
        X.gsk_sl_scope_get_return_type scope = some rt →
        X.gsk_sl_type_equal rt void = false →
        r.result = some return_node ∧
        r.preproc.errors = preproc.errors ++
          [⟨GskSlErrorCategory.TYPE_MISMATCH,
            "Functions expectes a return value of type " ++ X.gsk_sl_type_get_name rt⟩]) ∧
    (∀ rt, (gsk_sl_preprocessor_get p1).type ≠ GskSlTokenType.SEMICOLON →
        (gsk_sl_preprocessor_get e.preproc).type = GskSlTokenType.SEMICOLON →
        X.gsk_sl_scope_get_return_type e.scope = some rt →
        X.gsk_sl_type_equal rt void = true →
        r.result = some { return_node with value := some e.result } ∧
        r.preproc.errors = e.preproc.errors ++
          [⟨GskSlErrorCategory.TYPE_MISMATCH, "Cannot return a value from a void function."⟩]) ∧
    ((gsk_sl_preprocessor_get p1).type ≠ GskSlTokenType.SEMICOLON →
        (gsk_sl_preprocessor_get e.preproc).type = GskSlTokenType.SEMICOLON →
        X.gsk_sl_scope_get_return_type e.scope = none →
        r.result = some { return_node with value := some e.result } ∧
        r.preproc.errors = e.preproc.errors ++
          [⟨GskSlErrorCategory.SCOPE, "Cannot return from here."⟩]) := by
  simp only [parse_statement_of_return X scope preproc hret, parse_statement_end_result]
  refine ⟨?_, ?_, ?_, ?_⟩
  · intro rt h1 h2 h3
    have hp : (gsk_sl_node_parse_statement_return X scope preproc).preproc =
        gsk_sl_preprocessor_consume preproc := by
      simp [gsk_sl_node_parse_statement_return, gsk_sl_token_is, h1, h2, h3, gsk_sl_node_alloc]
    rw [parse_statement_end_semicolon _ _ _ (by rw [hp]; exact h1), hp]
    exact ⟨congrArg some (return_without_value X scope preproc h1).1,
      by simp [consume_errors, error_errors]⟩
  · intro rt h1 h2 h3
    have hp : (gsk_sl_node_parse_statement_return X scope preproc).preproc =
        gsk_sl_preprocessor_error (gsk_sl_preprocessor_consume preproc)
          GskSlErrorCategory.TYPE_MISMATCH
          ("Functions expectes a return value of type " ++ X.gsk_sl_type_get_name rt) := by
      simp [gsk_sl_node_parse_statement_return, gsk_sl_token_is, h1, h2, h3, gsk_sl_node_alloc]
    rw [parse_statement_end_semicolon _ _ _ (by rw [hp]; exact h1), hp]
    exact ⟨congrArg some (return_without_value X scope preproc h1).1,
      by simp [consume_errors, error_errors]⟩
  · intro rt h1 h2 h3 h4
    have hp : (gsk_sl_node_parse_statement_return X scope preproc).preproc =
        gsk_sl_preprocessor_error
          (X.gsk_sl_expression_parse scope (gsk_sl_preprocessor_consume preproc)).preproc
          GskSlErrorCategory.TYPE_MISMATCH "Cannot return a value from a void function." := by
      simp [gsk_sl_node_parse_statement_return, gsk_sl_token_is, h1, h3, h4, gsk_sl_node_alloc]
    rw [parse_statement_end_semicolon _ _ _ (by rw [hp]; exact h2), hp]
    exact ⟨congrArg some (return_with_value X scope preproc h1).1,
      by simp [consume_errors, error_errors]⟩
  · intro h1 h2 h3
    have hp : (gsk_sl_node_parse_statement_return X scope preproc).preproc =
        gsk_sl_preprocessor_error
          (X.gsk_sl_expression_parse scope (gsk_sl_preprocessor_consume preproc)).preproc
          GskSlErrorCategory.SCOPE "Cannot return from here." := by
      simp [gsk_sl_node_parse_statement_return, gsk_sl_token_is, h1, h3, gsk_sl_node_alloc]
    rw [parse_statement_end_semicolon _ _ _ (by rw [hp]; exact h2), hp]
    exact ⟨congrArg some (return_with_value X scope preproc h1).1,
      by simp [consume_errors, error_errors]⟩

/-- Witness for C2 in the small instance: `return;` in a void function, `return;`
in an `int` function, `return 1;` in a void function and `return 1;` outside
any function. -/
theorem return_statement_diagnostics_witness :
    ((gsk_sl_node_parse_statement sampleCollaborators (sample_scope (some .VOID))
          ⟨[tok_return, tok_semicolon], []⟩).result = some (gsk_sl_node_alloc .RETURN) ∧
      (gsk_sl_node_parse_statement sampleCollaborators (sample_scope (some .VOID))
          ⟨[tok_return, tok_semicolon], []⟩).preproc.errors = []) ∧
    ((gsk_sl_node_parse_statement sampleCollaborators (sample_scope (some .INT))
          ⟨[tok_return, tok_semicolon], []⟩).result = some (gsk_sl_node_alloc .RETURN) ∧
      (gsk_sl_node_parse_statement sampleCollaborators (sample_scope (some .INT))
          ⟨[tok_return, tok_semicolon], []⟩).preproc.errors =
        [⟨.TYPE_MISMATCH, "Functions expectes a return value of type int"⟩]) ∧
    ((gsk_sl_node_parse_statement sampleCollaborators (sample_scope (some .VOID))
          ⟨[tok_return, tok_intlit "1", tok_semicolon], []⟩).result =
        some { (gsk_sl_node_alloc .RETURN : GskSlNode GskSlScalarType SampleExpression String)
               with value := some ⟨tok_intlit "1"⟩ } ∧
      (gsk_sl_node_parse_statement sampleCollaborators (sample_scope (some .VOID))
          ⟨[tok_return, tok_intlit "1", tok_semicolon], []⟩).preproc.errors =
        [⟨.TYPE_MISMATCH, "Cannot return a value from a void function."⟩]) ∧
    ((gsk_sl_node_parse_statement sampleCollaborators (sample_scope none)
          ⟨[tok_return, tok_intlit "1", tok_semicolon], []⟩).result =
        some { (gsk_sl_node_alloc .RETURN : GskSlNode GskSlScalarType SampleExpression String)
               with value := some ⟨tok_intlit "1"⟩ } ∧
      (gsk_sl_node_parse_statement sampleCollaborators (sample_scope none)
          ⟨[tok_return, tok_intlit "1", tok_semicolon], []⟩).preproc.errors =
        [⟨.SCOPE, "Cannot return from here."⟩]) :=
  ⟨(return_statement_diagnostics sampleCollaborators (sample_scope (some .VOID))
      ⟨[tok_return, tok_semicolon], []⟩ rfl).1 .VOID rfl rfl rfl,
   (return_statement_diagnostics sampleCollaborators (sample_scope (some .INT))
      ⟨[tok_return, tok_semicolon], []⟩ rfl).2.1 .INT rfl rfl rfl,
   (return_statement_diagnostics sampleCollaborators (sample_scope (some .VOID))
      ⟨[tok_return, tok_intlit "1", tok_semicolon], []⟩ rfl).2.2.1 .VOID (by decide) rfl rfl rfl,
   (return_statement_diagnostics sampleCollaborators (sample_scope none)
      ⟨[tok_return, tok_intlit "1", tok_semicolon], []⟩ rfl).2.2.2 (by decide) rfl rfl⟩

/-- C3: for a declaration `T name = <expr>` whose initializer type cannot be
converted to `T`, `gsk_sl_node_parse_declaration` returns a Declaration node
without initializer, records exactly one TypeMismatch diagnostic (after those
of the expression parser) whose message contains the name of the initializer
type and the name of the declared type, and still creates the variable, with
the parsed name and no constant initial value, and adds it to the scope. -/
theorem declaration_initializer_mismatch (X : GskSlCollaborators Scope Ty Expr Val Fn)
    (scope : Scope) (stream : GskSlPreprocessor) (decoration : GskSlDecorations) (type : Ty)
    (hid : (gsk_sl_preprocessor_get stream).type = GskSlTokenType.IDENTIFIER)
    (heq : (gsk_sl_preprocessor_get (gsk_sl_preprocessor_consume stream)).type =
      GskSlTokenType.EQUAL)
    (hconv : X.gsk_sl_type_can_convert type
      (X.gsk_sl_expression_get_return_type
        (X.gsk_sl_expression_parse_assignment scope
          (gsk_sl_preprocessor_consume (gsk_sl_preprocessor_consume stream))).result) = false) :
    let e := X.gsk_sl_expression_parse_assignment scope
      (gsk_sl_preprocessor_consume (gsk_sl_preprocessor_consume stream))
    let initializer_name := X.gsk_sl_type_get_name (X.gsk_sl_expression_get_return_type e.result)
    let declared_name := X.gsk_sl_type_get_name type
    let v : GskSlVariable Ty Val := gsk_sl_variable_new
      (gsk_sl_pointer_type_new type true (decoration.values GskSlDecoration.CALLER_ACCESS).value)
      (some (gsk_sl_preprocessor_get stream).str) none
      (decoration.values GskSlDecoration.CONST).set
    let r := gsk_sl_node_parse_declaration X scope stream decoration type
    r.result.klass = GskSlNodeClass.DECLARATION ∧
    r.result.initial = none ∧
    r.result.variable_ = some v ∧
    gsk_sl_variable_get_initial_value v = none ∧
    r.scope = X.gsk_sl_scope_add_variable e.scope v ∧
    r.preproc.tokens = e.preproc.tokens ∧
    ∃ d : GskSlDiagnostic,
      r.preproc.errors = e.preproc.errors ++ [d] ∧
      d.category = GskSlErrorCategory.TYPE_MISMATCH ∧
      initializer_name.data <:+: d.message.data ∧
      declared_name.data <:+: d.message.data := by
  have hn : gsk_sl_node_parse_declaration_name X scope stream type =
      { result := (some (gsk_sl_preprocessor_get stream).str, none, none)
        scope := (X.gsk_sl_expression_parse_assignment scope
          (gsk_sl_preprocessor_consume (gsk_sl_preprocessor_consume stream))).scope
        preproc := gsk_sl_preprocessor_error
          (X.gsk_sl_expression_parse_assignment scope
            (gsk_sl_preprocessor_consume (gsk_sl_preprocessor_consume stream))).preproc
          GskSlErrorCategory.TYPE_MISMATCH
          ("Cannot convert from initializer type "
            ++ X.gsk_sl_type_get_name (X.gsk_sl_expression_get_return_type
              (X.gsk_sl_expression_parse_assignment scope
                (gsk_sl_preprocessor_consume (gsk_sl_preprocessor_consume stream))).result)
            ++ " to variable type " ++ X.gsk_sl_type_get_name type) } := by
    simp [gsk_sl_node_parse_declaration_name, gsk_sl_node_parse_declaration_initial,
      gsk_sl_token_is, hid, heq, hconv]
  intro e initializer_name declared_name v r
  have hr : r = { result := { (gsk_sl_node_alloc GskSlNodeClass.DECLARATION :
                    GskSlNode Ty Expr Val) with variable_ := some v, initial := none }
                  scope := X.gsk_sl_scope_add_variable e.scope v
                  preproc := gsk_sl_preprocessor_error e.preproc GskSlErrorCategory.TYPE_MISMATCH
                    ("Cannot convert from initializer type " ++ initializer_name
                      ++ " to variable type " ++ declared_name) } := by
    simp only [r, gsk_sl_node_parse_declaration, hn]
  rw [hr]
  refine ⟨rfl, rfl, rfl, rfl, rfl, rfl, _, rfl, rfl, ?_, ?_⟩
  · simp only [String.data_append]
    exact ⟨_, _, (List.append_assoc _ _ _).symm⟩
  · simp only [String.data_append]
    exact (List.suffix_append _ _).isInfix

/-- Witness for C3 in the small instance: `int x = 2.5`. -/
theorem declaration_initializer_mismatch_witness :
    (gsk_sl_node_parse_declaration sampleCollaborators (sample_scope (some .VOID))
        ⟨[tok_ident "x", tok_equal, tok_floatlit "2.5", tok_semicolon], []⟩
        ⟨fun _ => ⟨false, 0⟩⟩ GskSlScalarType.INT).result.initial = none ∧
    (gsk_sl_node_parse_declaration sampleCollaborators (sample_scope (some .VOID))
        ⟨[tok_ident "x", tok_equal, tok_floatlit "2.5", tok_semicolon], []⟩
        ⟨fun _ => ⟨false, 0⟩⟩ GskSlScalarType.INT).result.variable_ =
      some ⟨⟨.INT, true, 0⟩, some "x", none, false⟩ ∧
    (gsk_sl_node_parse_declaration sampleCollaborators (sample_scope (some .VOID))
        ⟨[tok_ident "x", tok_equal, tok_floatlit "2.5", tok_semicolon], []⟩
        ⟨fun _ => ⟨false, 0⟩⟩ GskSlScalarType.INT).scope.vars =
      [⟨⟨.INT, true, 0⟩, some "x", none, false⟩] ∧
    (gsk_sl_node_parse_declaration sampleCollaborators (sample_scope (some .VOID))
        ⟨[tok_ident "x", tok_equal, tok_floatlit "2.5", tok_semicolon], []⟩
        ⟨fun _ => ⟨false, 0⟩⟩ GskSlScalarType.INT).preproc.errors =
      [⟨.TYPE_MISMATCH, "Cannot convert from initializer type float to variable type int"⟩] := by
  have h := declaration_initializer_mismatch sampleCollaborators (sample_scope (some .VOID))
    ⟨[tok_ident "x", tok_equal, tok_floatlit "2.5", tok_semicolon], []⟩
    ⟨fun _ => ⟨false, 0⟩⟩ GskSlScalarType.INT rfl rfl rfl
  exact ⟨h.2.1, h.2.2.1, congrArg SampleScope.vars h.2.2.2.2.1, by decide⟩

theorem statement_case_return_iff (t : GskSlTokenType) :
    gsk_sl_node_parse_statement_case t = StatementCase.return_ ↔ t = GskSlTokenType.RETURN := by
  cases t <;> simp [gsk_sl_node_parse_statement_case]

theorem parse_statement_return_class (X : GskSlCollaborators Scope Ty Expr Val Fn)
    (scope : Scope) (preproc : GskSlPreprocessor) (node : GskSlNode Ty Expr Val)
    (hnode : (gsk_sl_node_parse_statement X scope preproc).result = some node)
    (hclass : node.klass = GskSlNodeClass.RETURN) :
    (gsk_sl_preprocessor_get preproc).type = GskSlTokenType.RETURN := by
  have hT := its_a_type_node X scope preproc
  have hD := default_node X scope preproc
  simp only at hT hD
  rw [← statement_case_return_iff]
  simp only [gsk_sl_node_parse_statement] at hnode
  split at hnode
  · simp only [parse_statement_end_result, Option.some.injEq] at hnode
    subst hnode
    simp [gsk_sl_node_alloc] at hclass
  · simp only [Option.some.injEq] at hnode
    subst hnode
    simp [gsk_sl_node_alloc] at hclass
  · simp only [parse_statement_end_result, Option.some.injEq] at hnode
    subst hnode
    rcases hT.2.1 with h | h <;> simp [h] at hclass
  · assumption
  · split at hnode
    · simp only [parse_statement_end_result, Option.some.injEq] at hnode
      subst hnode
      rcases hT.2.1 with h | h <;> simp [h] at hclass
    · simp only [parse_statement_end_result, Option.some.injEq] at hnode
      subst hnode
      simp [hD.2.1] at hclass
  · simp only [parse_statement_end_result, Option.some.injEq] at hnode
    subst hnode
    simp [hD.2.1] at hclass

/-- Counterexample to C4 as stated: in the small instance, `return 1;` inside a
void function yields a Return node that holds the value although the return
type is void. -/
theorem return_value_invariant_fails_in_void_function :
    ¬ spec_return_value_invariant sampleCollaborators (sample_scope (some .VOID))
        ⟨[tok_return, tok_intlit "1", tok_semicolon], []⟩ := by
  intro h
  have h1 := h { (gsk_sl_node_alloc .RETURN : GskSlNode GskSlScalarType SampleExpression String)
                 with value := some ⟨tok_intlit "1"⟩ } rfl rfl
  obtain ⟨rt, hrt, hvoid, _, _⟩ := h1.mp rfl
  have : rt = GskSlScalarType.VOID := by
    have : some GskSlScalarType.VOID = some rt := hrt
    exact (Option.some.inj this).symm
  subst this
  exact absurd hvoid (by decide)

/-- C4, amended: for every Return node produced by
`gsk_sl_node_parse_statement`, the value is present if and only if a value
expression was supplied, that is, the token after `return` is not `;`; when
present it is the expression parsed there.  The return type of the scope and
the convertibility check have no influence on it. -/
theorem return_value_present_iff_supplied (X : GskSlCollaborators Scope Ty Expr Val Fn)
    (scope : Scope) (preproc : GskSlPreprocessor) (node : GskSlNode Ty Expr Val)
    (hnode : (gsk_sl_node_parse_statement X scope preproc).result = some node)
    (hclass : node.klass = GskSlNodeClass.RETURN) :
    (node.value.isSome = true ↔
      (gsk_sl_preprocessor_get (gsk_sl_preprocessor_consume preproc)).type ≠
        GskSlTokenType.SEMICOLON) ∧
    (∀ value, node.value = some value →
      value = (X.gsk_sl_expression_parse scope (gsk_sl_preprocessor_consume preproc)).result) := by
  have hret := parse_statement_return_class X scope preproc node hnode hclass
  rw [parse_statement_of_return X scope preproc hret, parse_statement_end_result,
    Option.some.injEq] at hnode
  subst hnode
  by_cases hs : (gsk_sl_preprocessor_get (gsk_sl_preprocessor_consume preproc)).type =
      GskSlTokenType.SEMICOLON
  · rw [(return_without_value X scope preproc hs).1]
    simp [gsk_sl_node_alloc, hs]
  · rw [(return_with_value X scope preproc hs).1]
    simp [hs]

/-- Witness for the amended C4 in the small instance: `return 1;`. -/
theorem return_value_present_iff_supplied_witness :
    (some (⟨tok_intlit "1"⟩ : SampleExpression)).isSome = true ∧
    (gsk_sl_preprocessor_get (gsk_sl_preprocessor_consume
        ⟨[tok_return, tok_intlit "1", tok_semicolon], []⟩)).type ≠ GskSlTokenType.SEMICOLON :=
  ⟨rfl,
   (return_value_present_iff_supplied sampleCollaborators (sample_scope (some .VOID))
      ⟨[tok_return, tok_intlit "1", tok_semicolon], []⟩
      { (gsk_sl_node_alloc .RETURN : GskSlNode GskSlScalarType SampleExpression String)
        with value := some ⟨tok_intlit "1"⟩ } rfl rfl).1.mp rfl⟩

/-- C7: when the current token is EOF, `gsk_sl_node_parse_statement` records
exactly one Syntax diagnostic, returns an Empty node and leaves scope and
cursor as they were (no token consumed, no semicolon check, no
resynchronisation); a second call on the resulting state does the same
again. -/
theorem parse_statement_at_eof (X : GskSlCollaborators Scope Ty Expr Val Fn)
    (scope : Scope) (preproc : GskSlPreprocessor)
    (heof : (gsk_sl_preprocessor_get preproc).type = GskSlTokenType.EOF) :
    let d : GskSlDiagnostic := ⟨GskSlErrorCategory.SYNTAX, "Unexpected end of document"⟩
    let r := gsk_sl_node_parse_statement X scope preproc
    let r2 := gsk_sl_node_parse_statement X r.scope r.preproc
    (r.result = some (gsk_sl_node_alloc GskSlNodeClass.EMPTY) ∧ r.scope = scope ∧
      r.preproc.tokens = preproc.tokens ∧ r.preproc.errors = preproc.errors ++ [d]) ∧
    (r2.result = some (gsk_sl_node_alloc GskSlNodeClass.EMPTY) ∧ r2.scope = scope ∧
      r2.preproc.tokens = preproc.tokens ∧ r2.preproc.errors = r.preproc.errors ++ [d]) := by
  have h1 : gsk_sl_node_parse_statement X scope preproc =
      { result := some (gsk_sl_node_alloc GskSlNodeClass.EMPTY), scope := scope,
        preproc := gsk_sl_preprocessor_error preproc GskSlErrorCategory.SYNTAX
          "Unexpected end of document" } := by
    simp [gsk_sl_node_parse_statement, heof, gsk_sl_node_parse_statement_case]
  have h2 : gsk_sl_node_parse_statement X scope
      (gsk_sl_preprocessor_error preproc GskSlErrorCategory.SYNTAX
        "Unexpected end of document") =
      { result := some (gsk_sl_node_alloc GskSlNodeClass.EMPTY), scope := scope,
        preproc := gsk_sl_preprocessor_error
          (gsk_sl_preprocessor_error preproc GskSlErrorCategory.SYNTAX
            "Unexpected end of document") GskSlErrorCategory.SYNTAX
          "Unexpected end of document" } := by
    simp [gsk_sl_node_parse_statement, heof, error_get, gsk_sl_node_parse_statement_case]
  intro d r r2
  have e1 : r = ⟨some (gsk_sl_node_alloc GskSlNodeClass.EMPTY), scope,
      gsk_sl_preprocessor_error preproc GskSlErrorCategory.SYNTAX
        "Unexpected end of document"⟩ := h1
  have e2 : r2 = ⟨some (gsk_sl_node_alloc GskSlNodeClass.EMPTY), scope,
      gsk_sl_preprocessor_error
        (gsk_sl_preprocessor_error preproc GskSlErrorCategory.SYNTAX
          "Unexpected end of document") GskSlErrorCategory.SYNTAX
        "Unexpected end of document"⟩ := by
    simp only [r2, e1, h2]
  rw [e2, e1]
  exact ⟨⟨rfl, rfl, rfl, rfl⟩, rfl, rfl, rfl, rfl⟩

/-- Witness for C7 in the small instance: the empty token stream. -/
theorem parse_statement_at_eof_witness :
    (gsk_sl_node_parse_statement sampleCollaborators (sample_scope none) ⟨[], []⟩).result =
        some (gsk_sl_node_alloc GskSlNodeClass.EMPTY) ∧
    (gsk_sl_node_parse_statement sampleCollaborators (sample_scope none) ⟨[], []⟩).preproc =
        ⟨[], [⟨GskSlErrorCategory.SYNTAX, "Unexpected end of document"⟩]⟩ := by
  have h := parse_statement_at_eof sampleCollaborators (sample_scope none) ⟨[], []⟩ rfl
  exact ⟨h.1.1, rfl⟩

theorem message_contains_first (a v b r c : String) :
    v.data <:+: (a ++ v ++ b ++ r ++ c).data := by
  simp only [String.data_append]
  exact ⟨a.data, b.data ++ r.data ++ c.data, by simp only [List.append_assoc]⟩

theorem message_contains_second (a v b r c : String) :
    r.data <:+: (a ++ v ++ b ++ r ++ c).data := by
  simp only [String.data_append]
  exact ⟨a.data ++ v.data ++ b.data, c.data, rfl⟩

/-- C8: in a scope with a non-void return type, `return <expr>` with an
expression whose type does not convert to the return type gives the same
result as it would if the conversion check passed (`Xc` is `X` with a check that
always passes): the same Return node, which holds the parsed expression, the
same scope and the same final cursor, hence the same trailing-semicolon
handling; the diagnostics differ by exactly one TypeMismatch diagnostic, whose
message contains both type names and which sits right after the diagnostics of
the expression parser and before the one the semicolon handling may add. -/
theorem return_mismatch_keeps_value (X : GskSlCollaborators Scope Ty Expr Val Fn)
    (scope : Scope) (preproc : GskSlPreprocessor) (rt : Ty)
    (hret : (gsk_sl_preprocessor_get preproc).type = GskSlTokenType.RETURN)
    (hvalue : (gsk_sl_preprocessor_get (gsk_sl_preprocessor_consume preproc)).type ≠
      GskSlTokenType.SEMICOLON)
    (hrt : X.gsk_sl_scope_get_return_type
      (X.gsk_sl_expression_parse scope (gsk_sl_preprocessor_consume preproc)).scope = some rt)
    (hvoid : X.gsk_sl_type_equal rt (X.gsk_sl_type_get_scalar GskSlScalarType.VOID) = false)
    (hconv : X.gsk_sl_type_can_convert rt
      (X.gsk_sl_expression_get_return_type
        (X.gsk_sl_expression_parse scope (gsk_sl_preprocessor_consume preproc)).result) = false) :
    let e := X.gsk_sl_expression_parse scope (gsk_sl_preprocessor_consume preproc)
    let value_name := X.gsk_sl_type_get_name (X.gsk_sl_expression_get_return_type e.result)
    let return_name := X.gsk_sl_type_get_name rt
    let Xc : GskSlCollaborators Scope Ty Expr Val Fn :=
      { X with gsk_sl_type_can_convert := fun _ _ => true }
    let r := gsk_sl_node_parse_statement X scope preproc
    let rc := gsk_sl_node_parse_statement Xc scope preproc
    r.result = some { (gsk_sl_node_alloc GskSlNodeClass.RETURN : GskSlNode Ty Expr Val) with
                      value := some e.result } ∧
    r.result = rc.result ∧ r.scope = rc.scope ∧ r.preproc.tokens = rc.preproc.tokens ∧
    ∃ (d : GskSlDiagnostic) (later : List GskSlDiagnostic),
      rc.preproc.errors = e.preproc.errors ++ later ∧
      r.preproc.errors = e.preproc.errors ++ d :: later ∧
      d.category = GskSlErrorCategory.TYPE_MISMATCH ∧
      value_name.data <:+: d.message.data ∧ return_name.data <:+: d.message.data ∧
      (later = [] ∨
        later = [⟨GskSlErrorCategory.SYNTAX, "No semicolon at end of statement."⟩]) := by
  intro e value_name return_name Xc r rc
  have hretc : (gsk_sl_preprocessor_get preproc).type = GskSlTokenType.RETURN := hret
  have hp : (gsk_sl_node_parse_statement_return X scope preproc).preproc =
      gsk_sl_preprocessor_error e.preproc GskSlErrorCategory.TYPE_MISMATCH
        ("Cannot convert type " ++ value_name ++ " to return type " ++ return_name ++ ".") := by
    simp [gsk_sl_node_parse_statement_return, gsk_sl_token_is, hvalue, hrt, hvoid, hconv,
      gsk_sl_node_alloc, e, value_name, return_name]
  have hpc : (gsk_sl_node_parse_statement_return Xc scope preproc).preproc = e.preproc := by
    simp [gsk_sl_node_parse_statement_return, gsk_sl_token_is, hvalue, hrt, hvoid,
      gsk_sl_node_alloc, e, Xc]
  have hv := return_with_value X scope preproc hvalue
  have hvc := return_with_value Xc scope preproc hvalue
  have hr : r = gsk_sl_node_parse_statement_end
      { (gsk_sl_node_alloc GskSlNodeClass.RETURN : GskSlNode Ty Expr Val) with
        value := some e.result } e.scope
      (gsk_sl_preprocessor_error e.preproc GskSlErrorCategory.TYPE_MISMATCH
        ("Cannot convert type " ++ value_name ++ " to return type " ++ return_name ++ ".")) := by
    simp only [r, parse_statement_of_return X scope preproc hret, hp, hv.1, hv.2, e]
  have hrc : rc = gsk_sl_node_parse_statement_end
      { (gsk_sl_node_alloc GskSlNodeClass.RETURN : GskSlNode Ty Expr Val) with
        value := some e.result } e.scope e.preproc := by
    simp only [rc, parse_statement_of_return Xc scope preproc hretc, hpc, hvc.1, hvc.2]
  rw [hr, hrc]
  refine ⟨rfl, rfl, rfl, ?_, ⟨GskSlErrorCategory.TYPE_MISMATCH,
    "Cannot convert type " ++ value_name ++ " to return type " ++ return_name ++ "."⟩, ?_⟩
  · by_cases hs : (gsk_sl_preprocessor_get e.preproc).type = GskSlTokenType.SEMICOLON
    · rw [parse_statement_end_semicolon _ _ _ (by rw [error_get]; exact hs),
        parse_statement_end_semicolon _ _ _ hs]
      rfl
    · rw [parse_statement_end_no_semicolon _ _ _ (by rw [error_get]; exact hs),
        parse_statement_end_no_semicolon _ _ _ hs]
      rfl
  · by_cases hs : (gsk_sl_preprocessor_get e.preproc).type = GskSlTokenType.SEMICOLON
    · refine ⟨[], ?_, ?_, rfl, ?_, ?_, Or.inl rfl⟩
      · rw [parse_statement_end_semicolon _ _ _ hs]; simp [consume_errors]
      · rw [parse_statement_end_semicolon _ _ _ (by rw [error_get]; exact hs)]
        simp [consume_errors, error_errors]
      · exact message_contains_first _ _ _ _ _
      · exact message_contains_second _ _ _ _ _
    · refine ⟨[⟨GskSlErrorCategory.SYNTAX, "No semicolon at end of statement."⟩],
        ?_, ?_, rfl, ?_, ?_, Or.inr rfl⟩
      · rw [parse_statement_end_no_semicolon _ _ _ hs]
        simp [consume_errors, error_errors, sync_errors]
      · rw [parse_statement_end_no_semicolon _ _ _ (by rw [error_get]; exact hs)]
        simp [consume_errors, error_errors, sync_errors]
      · exact message_contains_first _ _ _ _ _
      · exact message_contains_second _ _ _ _ _

/-- Witness for C8 in the small instance: `return 2.5;` in a function
returning `int`. -/
theorem return_mismatch_keeps_value_witness :
    (gsk_sl_node_parse_statement sampleCollaborators (sample_scope (some .INT))
        ⟨[tok_return, tok_floatlit "2.5", tok_semicolon], []⟩).result =
      some { (gsk_sl_node_alloc .RETURN : GskSlNode GskSlScalarType SampleExpression String)
             with value := some ⟨tok_floatlit "2.5"⟩ } ∧
    (gsk_sl_node_parse_statement sampleCollaborators (sample_scope (some .INT))
        ⟨[tok_return, tok_floatlit "2.5", tok_semicolon], []⟩).preproc =
      ⟨[], [⟨.TYPE_MISMATCH, "Cannot convert type float to return type int."⟩]⟩ :=
  ⟨(return_mismatch_keeps_value sampleCollaborators (sample_scope (some .INT))
      ⟨[tok_return, tok_floatlit "2.5", tok_semicolon], []⟩ .INT rfl (by decide) rfl rfl rfl).1,
   by decide⟩

/-- C9: for a Declaration node (with its variable) and any writer state,
`gsk_sl_node_write_spv` returns the id that
`gsk_spv_writer_get_id_for_variable` gives for the variable.  If the node has an
initializer and the variable carries no constant initial value, the
initializer is emitted next and one instruction is appended after it: a 3-word
`GSK_SPV_OP_STORE` in the code section with operands variable id, initializer
id.  Otherwise the resulting writer is the one `get_id_for_variable` left: no
store, and the initializer is not emitted. -/
theorem declaration_write_spv (S : GskSpvCollaborators Ty Expr Val Ids)
    (node : GskSlNode Ty Expr Val) (writer : GskSpvWriter Ids) (v : GskSlVariable Ty Val)
    (hclass : node.klass = GskSlNodeClass.DECLARATION)
    (hvar : node.variable_ = some v) :
    let idw := S.gsk_spv_writer_get_id_for_variable writer v
    (∀ initial, node.initial = some initial → gsk_sl_variable_get_initial_value v = none →
      let e := S.gsk_sl_expression_write_spv initial idw.2
      ∃ w, gsk_sl_node_write_spv S node writer = some (idw.1, w) ∧
        w.ids = e.2.ids ∧
        w.instructions = e.2.instructions ++
          [⟨GskSpvWriterSection.CODE, 3, GskSpvOp.STORE, [idw.1, e.1]⟩]) ∧
    (node.initial = none ∨ (gsk_sl_variable_get_initial_value v).isSome = true →
      gsk_sl_node_write_spv S node writer = some idw) := by
  intro idw
  constructor
  · intro initial hinit hnone
    refine ⟨gsk_spv_writer_add (S.gsk_sl_expression_write_spv initial idw.2).2
      GskSpvWriterSection.CODE 3 GskSpvOp.STORE
      [idw.1, (S.gsk_sl_expression_write_spv initial idw.2).1], ?_, rfl, rfl⟩
    simp [gsk_sl_node_write_spv, hclass, gsk_sl_node_declaration_write_spv, hvar, hinit, hnone,
      idw]
  · intro h
    rcases h with h | h
    · cases hv : gsk_sl_variable_get_initial_value v <;>
        simp [gsk_sl_node_write_spv, hclass, gsk_sl_node_declaration_write_spv, hvar, h, hv, idw]
    · obtain ⟨c, hc⟩ := Option.isSome_iff_exists.mp h
      cases hi : node.initial <;>
        simp [gsk_sl_node_write_spv, hclass, gsk_sl_node_declaration_write_spv, hvar, hi, hc, idw]

/-- Witness for C9 in the small instance: a declaration `int x = y` where the
variable has no constant value (store emitted after the initializer), and a
declaration `int x = 1` where the variable carries the constant (nothing
emitted). -/
theorem declaration_write_spv_witness :
    (gsk_sl_node_write_spv sampleSpvCollaborators
        { (gsk_sl_node_alloc .DECLARATION :
            GskSlNode GskSlScalarType SampleExpression String) with
          variable_ := some ⟨⟨.INT, true, 0⟩, some "x", none, false⟩
          initial := some ⟨tok_ident "y"⟩ }
        ⟨0, []⟩).map (fun r => (r.1, r.2.ids, r.2.instructions)) =
      some (1, 2, [⟨.CODE, 2, .OTHER 0, [2]⟩, ⟨.CODE, 3, .STORE, [1, 2]⟩]) ∧
    (gsk_sl_node_write_spv sampleSpvCollaborators
        { (gsk_sl_node_alloc .DECLARATION :
            GskSlNode GskSlScalarType SampleExpression String) with
          variable_ := some ⟨⟨.INT, true, 0⟩, some "x", some "1", false⟩
          initial := some ⟨tok_intlit "1"⟩ }
        ⟨0, []⟩).map (fun r => (r.1, r.2.ids, r.2.instructions)) =
      some (1, 1, []) := by
  have h1 := (declaration_write_spv sampleSpvCollaborators
    { (gsk_sl_node_alloc .DECLARATION : GskSlNode GskSlScalarType SampleExpression String) with
      variable_ := some ⟨⟨.INT, true, 0⟩, some "x", none, false⟩
      initial := some ⟨tok_ident "y"⟩ }
    ⟨0, []⟩ ⟨⟨.INT, true, 0⟩, some "x", none, false⟩ rfl rfl).1 ⟨tok_ident "y"⟩ rfl rfl
  have h2 := (declaration_write_spv sampleSpvCollaborators
    { (gsk_sl_node_alloc .DECLARATION : GskSlNode GskSlScalarType SampleExpression String) with
      variable_ := some ⟨⟨.INT, true, 0⟩, some "x", some "1", false⟩
      initial := some ⟨tok_intlit "1"⟩ }
    ⟨0, []⟩ ⟨⟨.INT, true, 0⟩, some "x", some "1", false⟩ rfl rfl).2 (Or.inr rfl)
  obtain ⟨w, hw, hids, hins⟩ := h1
  constructor
  · rw [hw]
    simp only [Option.map_some', hids, hins]
    rfl
  · rw [h2]
    rfl

end Theorems

/-! ## Properties of the shader builder -/

theorem foldl_add_define_defines (calls : List (Option String × Option String))
    (builder : GskShaderBuilder) :
    (calls.foldl (fun builder c => gsk_shader_builder_add_define builder c.1 c.2)
        builder).defines =
      builder.defines ++ spec_flat_defines (spec_accepted_defines calls) := by
  induction calls generalizing builder with
  | nil => simp [spec_accepted_defines, spec_flat_defines]
  | cons c rest ih =>
    rw [List.foldl_cons, ih]
    obtain ⟨name, value⟩ := c
    cases name with
    | none => simp [gsk_shader_builder_add_define, spec_accepted_defines]
    | some n =>
      cases value with
      | none => simp [gsk_shader_builder_add_define, spec_accepted_defines]
      | some v =>
        by_cases hn : n = ""
        · simp [gsk_shader_builder_add_define, spec_accepted_defines, hn]
        · by_cases hv : v = ""
          · simp [gsk_shader_builder_add_define, spec_accepted_defines, hn, hv]
          · simp [gsk_shader_builder_add_define, spec_accepted_defines, spec_flat_defines, hn, hv]

theorem spec_flat_defines_length (defines : List (String × String)) :
    (spec_flat_defines defines).length = 2 * defines.length := by
  induction defines with
  | nil => rfl
  | cons d rest ih =>
    simp only [spec_flat_defines, List.flatMap_cons, List.length_append, List.length_cons,
      List.length_nil] at ih ⊢
    omega

theorem spec_flat_defines_cons (d : String × String) (rest : List (String × String)) :
    spec_flat_defines (d :: rest) = d.1 :: d.2 :: spec_flat_defines rest := by
  simp [spec_flat_defines]

theorem spec_accepted_defines_nonempty (calls : List (Option String × Option String)) :
    ∀ d ∈ spec_accepted_defines calls, d.1 ≠ "" ∧ d.2 ≠ "" := by
  intro d hd
  simp only [spec_accepted_defines, List.mem_filterMap] at hd
  obtain ⟨c, _, hc⟩ := hd
  obtain ⟨name, value⟩ := c
  cases name <;> cases value <;> simp at hc
  obtain ⟨h, rfl⟩ := hc
  exact h

theorem spec_flat_defines_mem (defines : List (String × String)) (s : String)
    (hs : s ∈ spec_flat_defines defines) : ∃ d ∈ defines, s = d.1 ∨ s = d.2 := by
  simp only [spec_flat_defines, List.mem_flatMap] at hs
  obtain ⟨d, hd, h⟩ := hs
  exact ⟨d, hd, by simpa using h⟩

theorem define_loop_spec (pairs : List (String × String)) :
    ∀ (pre : List String) (fuel i : Nat) (code : String) (count : Nat),
      pre.length = i →
      (pre ++ spec_flat_defines pairs).length ≤ G_MAXINT →
      pairs.length ≤ fuel →
      gsk_shader_builder_define_loop (pre ++ spec_flat_defines pairs) fuel i code count =
        some (code ++ spec_define_lines pairs ++ (if pairs = [] then "" else "\n"),
              count + pairs.length) := by
  induction pairs with
  | nil =>
    intro pre fuel i code count hi _ _
    have hlen : (pre ++ spec_flat_defines []).length = i := by simp [spec_flat_defines, hi]
    cases fuel <;> simp [gsk_shader_builder_define_loop, hlen, spec_define_lines]
  | cons d rest ih =>
    intro pre fuel i code count hi hlen hfuel
    obtain ⟨name, value⟩ := d
    cases fuel with
    | zero => simp at hfuel
    | succ fuel =>
      have hflat : spec_flat_defines ((name, value) :: rest) =
          name :: value :: spec_flat_defines rest := spec_flat_defines_cons _ _
      have hL : (pre ++ spec_flat_defines ((name, value) :: rest)).length =
          i + 2 + 2 * rest.length := by
        rw [hflat]
        simp [spec_flat_defines_length, hi]
        omega
      have hmax : i + 2 + 2 * rest.length ≤ 2 ^ 31 - 1 := by
        rw [← hL]; exact hlen
      have hr0 : g_ptr_array_index (pre ++ spec_flat_defines ((name, value) :: rest)) i =
          some name := by
        rw [hflat]
        unfold g_ptr_array_index
        rw [List.getElem?_append_right (by omega)]
        simp [hi]
      have hr1 : g_ptr_array_index (pre ++ spec_flat_defines ((name, value) :: rest)) (i + 1) =
          some value := by
        rw [hflat]
        unfold g_ptr_array_index
        rw [List.getElem?_append_right (by omega)]
        simp [hi]
      have hrec := ih (pre ++ [name, value]) fuel (i + 2)
        (if rest = [] then code ++ "#define" ++ " " ++ name ++ " " ++ value ++ "\n" ++ "\n"
          else code ++ "#define" ++ " " ++ name ++ " " ++ value ++ "\n")
        (count + 1) (by simp [hi]) (by
          have : pre ++ [name, value] ++ spec_flat_defines rest =
              pre ++ spec_flat_defines ((name, value) :: rest) := by
            rw [hflat]; simp
          rw [this]; exact hlen) (by simpa using hfuel)
      have hsame : pre ++ [name, value] ++ spec_flat_defines rest =
          pre ++ spec_flat_defines ((name, value) :: rest) := by
        rw [hflat]; simp
      rw [hsame] at hrec
      have hlast : (i % 2 ^ 32 = ((i + 2 + 2 * rest.length) % 2 ^ 32 + 2 ^ 32 - 2) % 2 ^ 32) ↔
          rest = [] := by
        rw [← List.length_eq_zero]
        omega
      have hguard : i % 2 ^ 32 < (i + 2 + 2 * rest.length) % 2 ^ 32 := by omega
      have hnext : i + 2 ≤ G_MAXINT := by
        simp only [G_MAXINT]; omega
      rw [gsk_shader_builder_define_loop]
      simp only [hL, hguard, if_true, hr0, hr1, hnext, hlast]
      rw [hrec]
      have h7 : "#define " = "#define" ++ " " := by decide
      by_cases hrest : rest = []
      · subst hrest
        simp [spec_define_lines, h7, String.append_assoc]
      · simp [spec_define_lines, h7, String.append_assoc, hrest]
        omega

theorem builder_after_defines_defines (calls : List (Option String × Option String)) :
    (builder_after_defines calls).defines = spec_flat_defines (spec_accepted_defines calls) := by
  simp [builder_after_defines, foldl_add_define_defines, gsk_shader_builder_init]

theorem define_loop_of_flat (defines : List (String × String)) (code : String)
    (hlen : (spec_flat_defines defines).length ≤ G_MAXINT) :
    gsk_shader_builder_define_loop (spec_flat_defines defines)
        (spec_flat_defines defines).length 0 code 0 =
      some (code ++ spec_define_lines defines ++ (if defines = [] then "" else "\n"),
        defines.length) := by
  have h := define_loop_spec defines [] (spec_flat_defines defines).length 0 code 0 rfl
    (by simpa using hlen) (by rw [spec_flat_defines_length]; omega)
  simpa using h

/-- C13: invariant of the define list.  After any sequence of
`gsk_shader_builder_add_define` calls on a freshly created builder, `defines`
is the flat list name1, value1, name2, value2, ... of the accepted calls in
call order; its length is even (twice their number) and no entry is empty.  A
call whose name or value is `NULL` or empty leaves the builder unchanged.
Consequently, as long as the length fits the `int` loop counter, the define
loop of `gsk_shader_builder_compile_shader` reads inside the array only and
its body runs exactly once per accepted define; without defines it runs zero
times and leaves the text as it was, whatever `len - 2` wraps to. -/
theorem add_define_invariant (calls : List (Option String × Option String)) :
    (builder_after_defines calls).defines = spec_flat_defines (spec_accepted_defines calls) ∧
    (builder_after_defines calls).defines.length = 2 * (spec_accepted_defines calls).length ∧
    (∀ s ∈ (builder_after_defines calls).defines, s ≠ "") ∧
    (∀ (b : GskShaderBuilder) (name value : Option String),
      name = none ∨ name = some "" ∨ value = none ∨ value = some "" →
      gsk_shader_builder_add_define b name value = b) ∧
    ((builder_after_defines calls).defines.length ≤ G_MAXINT →
      ∀ code : String, ∃ text : String,
        gsk_shader_builder_define_loop (builder_after_defines calls).defines
            (builder_after_defines calls).defines.length 0 code 0 =
          some (text, (spec_accepted_defines calls).length)) ∧
    (spec_accepted_defines calls = [] →
      ∀ code : String,
        gsk_shader_builder_define_loop (builder_after_defines calls).defines
            (builder_after_defines calls).defines.length 0 code 0 =
          some (code, 0)) := by
  have hflat : (builder_after_defines calls).defines =
      spec_flat_defines (spec_accepted_defines calls) := builder_after_defines_defines calls
  refine ⟨hflat, ?_, ?_, ?_, ?_, ?_⟩
  · rw [hflat, spec_flat_defines_length]
  · intro s hs
    rw [hflat] at hs
    obtain ⟨d, hd, h⟩ := spec_flat_defines_mem _ s hs
    have hne := spec_accepted_defines_nonempty calls d hd
    rcases h with h | h
    · rw [h]; exact hne.1
    · rw [h]; exact hne.2
  · intro b name value h
    rcases h with h | h | h | h
    · subst h; rfl
    · subst h; simp [gsk_shader_builder_add_define]
    · subst h; cases name with
      | none => rfl
      | some n => by_cases hn : n = "" <;> simp [gsk_shader_builder_add_define, hn]
    · subst h; cases name with
      | none => rfl
      | some n => by_cases hn : n = "" <;> simp [gsk_shader_builder_add_define, hn]
  · intro hlen code
    rw [hflat] at hlen ⊢
    exact ⟨_, define_loop_of_flat (spec_accepted_defines calls) code hlen⟩
  · intro hnone code
    rw [hflat, hnone]
    rfl

/-- Witness for C13: five calls, three of them rejected (`NULL` name, empty
name, empty value); the array holds the two accepted defines and the loop body
runs twice. -/
theorem add_define_invariant_witness :
    (builder_after_defines
        [(some "A", some "1"), (none, some "2"), (some "", some "3"), (some "B", some ""),
          (some "C", some "3")]).defines = ["A", "1", "C", "3"] ∧
    gsk_shader_builder_add_define sampleShaderBuilder (some "B") (some "") =
      sampleShaderBuilder ∧
    (∃ text : String,
      gsk_shader_builder_define_loop ["A", "1", "C", "3"] 4 0 "" 0 = some (text, 2)) ∧
    gsk_shader_builder_define_loop [] 0 0 "#version 150\n\n" 0 = some ("#version 150\n\n", 0) := by
  have h := add_define_invariant
    [(some "A", some "1"), (none, some "2"), (some "", some "3"), (some "B", some ""),
      (some "C", some "3")]
  have h0 := add_define_invariant []
  exact ⟨by decide, h.2.2.2.1 sampleShaderBuilder (some "B") (some "") (Or.inr (Or.inr (Or.inr rfl))),
    h.2.2.2.2.1 (by decide) "", h0.2.2.2.2.2 rfl "#version 150\n\n"⟩

theorem guint_of_int_of_guint (n : Nat) : guint_of_int (int_of_guint n) = n % 2 ^ 32 := by
  unfold guint_of_int int_of_guint
  split <;> omega

theorem compile_shader_header_spec (builder : GskShaderBuilder)
    (defines : List (String × String))
    (hdefines : builder.defines = spec_flat_defines defines)
    (hlen : builder.defines.length ≤ G_MAXINT) :
    gsk_shader_builder_compile_shader_header builder =
      some ((if builder.version > 0 then "#version " ++ toString builder.version ++ "\n\n"
              else "")
            ++ spec_define_lines defines ++ (if defines = [] then "" else "\n")) := by
  unfold gsk_shader_builder_compile_shader_header
  rw [hdefines] at hlen ⊢
  simp only [define_loop_of_flat defines _ hlen, Option.map_some']
  have hnl : "\n\n" = "\n" ++ "\n" := by decide
  by_cases hv : builder.version > 0
  · simp [hv, hnl, String.append_assoc]
  · simp [hv]

theorem lookup_shader_code_ok (E : GskShaderEnvironment) (code : String)
    (base_path shader_file : Option String) (st : GskShaderState) (source : String)
    (h : E.g_resources_lookup_data (lookup_shader_code_path E base_path shader_file) =
      Except.ok source) :
    lookup_shader_code E code base_path shader_file st =
      (true, code ++ source,
        st.call (GskExternalCall.g_resources_lookup_data
          (lookup_shader_code_path E base_path shader_file))) := by
  simp only [lookup_shader_code, h]

theorem lookup_shader_code_error (E : GskShaderEnvironment) (code : String)
    (base_path shader_file : Option String) (st : GskShaderState) (e : GError)
    (h : E.g_resources_lookup_data (lookup_shader_code_path E base_path shader_file) =
      Except.error e) :
    lookup_shader_code E code base_path shader_file st =
      (false, code,
        { calls := st.calls ++ [GskExternalCall.g_resources_lookup_data
            (lookup_shader_code_path E base_path shader_file)],
          errors := st.errors ++ [e] }) := by
  simp only [lookup_shader_code, h, GskShaderState.call]

theorem compile_shader_found (E : GskShaderEnvironment) (builder : GskShaderBuilder)
    (defines : List (String × String)) (shader_type : Nat)
    (shader_preamble shader_source : Option String) (st : GskShaderState)
    (preamble body : String)
    (hdefines : builder.defines = spec_flat_defines defines)
    (hlen : builder.defines.length ≤ G_MAXINT)
    (hp : E.g_resources_lookup_data
      (lookup_shader_code_path E builder.resource_base_path shader_preamble) =
        Except.ok preamble)
    (hb : E.g_resources_lookup_data
      (lookup_shader_code_path E builder.resource_base_path shader_source) = Except.ok body) :
    ∃ (result : Int) (later : List GskExternalCall) (errors : List GError),
      gsk_shader_builder_compile_shader E builder shader_type shader_preamble shader_source st =
        some (result,
          { calls := st.calls ++ spec_stage_lookups E builder shader_preamble shader_source ++
              spec_stage_compile shader_type
                (E.glCreateShader
                  (st.calls ++ spec_stage_lookups E builder shader_preamble shader_source)
                  shader_type)
                (spec_shader_source builder.version defines preamble body) ++ later,
            errors := st.errors ++ errors }) ∧
      ((later = [] ∧ errors = [] ∧
          result = int_of_guint (E.glCreateShader
            (st.calls ++ spec_stage_lookups E builder shader_preamble shader_source)
            shader_type)) ∨
        (later = [GskExternalCall.glDeleteShader
            (E.glCreateShader
              (st.calls ++ spec_stage_lookups E builder shader_preamble shader_source)
              shader_type % 2 ^ 32)] ∧
          result = -1 ∧
          ∃ e : GError, errors = [e] ∧ e.code = GErrorCode.GDK_GL_ERROR_COMPILATION_FAILED)) := by
  have hheader := compile_shader_header_spec builder defines hdefines hlen
  have hsrc : (if builder.version > 0 then "#version " ++ toString builder.version ++ "\n\n"
        else "") ++ spec_define_lines defines ++ (if defines = [] then "" else "\n")
        ++ preamble ++ "\n" ++ body =
      spec_shader_source builder.version defines preamble body := rfl
  simp only [gsk_shader_builder_compile_shader, hheader,
    lookup_shader_code_ok E _ _ _ _ _ hp, lookup_shader_code_ok E _ _ _ _ _ hb,
    GskShaderState.call, guint_of_int_of_guint, List.append_assoc, List.cons_append,
    List.nil_append, hsrc, spec_stage_lookups, spec_stage_compile]
  split
  · exact ⟨_, [GskExternalCall.glDeleteShader _], [_], rfl, Or.inr ⟨rfl, rfl, _, rfl, rfl⟩⟩
  · exact ⟨_, [], [], by simp, Or.inl ⟨rfl, rfl, rfl⟩⟩

theorem compile_shader_preamble_missing (E : GskShaderEnvironment) (builder : GskShaderBuilder)
    (defines : List (String × String)) (shader_type : Nat)
    (shader_preamble shader_source : Option String) (st : GskShaderState) (e : GError)
    (hdefines : builder.defines = spec_flat_defines defines)
    (hlen : builder.defines.length ≤ G_MAXINT)
    (hp : E.g_resources_lookup_data
      (lookup_shader_code_path E builder.resource_base_path shader_preamble) =
        Except.error e) :
    gsk_shader_builder_compile_shader E builder shader_type shader_preamble shader_source st =
      some (-1,
        { calls := st.calls ++ [GskExternalCall.g_resources_lookup_data
            (lookup_shader_code_path E builder.resource_base_path shader_preamble)],
          errors := st.errors ++ [e] }) := by
  have hheader := compile_shader_header_spec builder defines hdefines hlen
  simp only [gsk_shader_builder_compile_shader, hheader,
    lookup_shader_code_error E _ _ _ _ _ hp]

theorem compile_shader_body_missing (E : GskShaderEnvironment) (builder : GskShaderBuilder)
    (defines : List (String × String)) (shader_type : Nat)
    (shader_preamble shader_source : Option String) (st : GskShaderState)
    (preamble : String) (e : GError)
    (hdefines : builder.defines = spec_flat_defines defines)
    (hlen : builder.defines.length ≤ G_MAXINT)
    (hp : E.g_resources_lookup_data
      (lookup_shader_code_path E builder.resource_base_path shader_preamble) =
        Except.ok preamble)
    (hb : E.g_resources_lookup_data
      (lookup_shader_code_path E builder.resource_base_path shader_source) =
        Except.error e) :
    gsk_shader_builder_compile_shader E builder shader_type shader_preamble shader_source st =
      some (-1,
        { calls := st.calls ++ spec_stage_lookups E builder shader_preamble shader_source,
          errors := st.errors ++ [e] }) := by
  have hheader := compile_shader_header_spec builder defines hdefines hlen
  simp only [gsk_shader_builder_compile_shader, hheader,
    lookup_shader_code_ok E _ _ _ _ _ hp, lookup_shader_code_error E _ _ _ _ _ hb,
    GskShaderState.call, List.append_assoc, List.cons_append, List.nil_append,
    spec_stage_lookups]

/-- C12: the text handed to the compiler.  For a builder whose define array is
the flat list of the defines (n1,v1),...,(nk,vk) and fits the `int` loop
counter: when the preamble and the body resource are found,
`gsk_shader_builder_compile_shader` looks both up, creates a shader and hands
it one source text, the one the specification describes: `#version <v>` and
two newlines when `v > 0`, the lines `#define <ni> <vi>` in order with one
blank line after the last, the preamble text, one newline, the body text; the
only call that may follow the compilation is the deletion of the shader.  When
the preamble lookup fails, or the body lookup fails, `-1` is returned, the
error of the lookup is stored, and no GL call has been made. -/
theorem compile_shader_source (E : GskShaderEnvironment) (builder : GskShaderBuilder)
    (defines : List (String × String)) (shader_type : Nat)
    (shader_preamble shader_source : Option String) (st : GskShaderState)
    (hdefines : builder.defines = spec_flat_defines defines)
    (hlen : builder.defines.length ≤ G_MAXINT) :
    let preamble_path := lookup_shader_code_path E builder.resource_base_path shader_preamble
    let source_path := lookup_shader_code_path E builder.resource_base_path shader_source
    let lookups := spec_stage_lookups E builder shader_preamble shader_source
    let r := gsk_shader_builder_compile_shader E builder shader_type shader_preamble
      shader_source st
    (∀ preamble body : String,
      E.g_resources_lookup_data preamble_path = Except.ok preamble →
      E.g_resources_lookup_data source_path = Except.ok body →
      ∃ (result : Int) (st1 : GskShaderState) (later : List GskExternalCall),
        r = some (result, st1) ∧
        st1.calls = st.calls ++ lookups ++
          spec_stage_compile shader_type (E.glCreateShader (st.calls ++ lookups) shader_type)
            (spec_shader_source builder.version defines preamble body) ++ later ∧
        (later = [] ∨
          later = [GskExternalCall.glDeleteShader
            (E.glCreateShader (st.calls ++ lookups) shader_type % 2 ^ 32)])) ∧
    (∀ e : GError,
      E.g_resources_lookup_data preamble_path = Except.error e →
      r = some (-1,
        { calls := st.calls ++ [GskExternalCall.g_resources_lookup_data preamble_path],
          errors := st.errors ++ [e] })) ∧
    (∀ (preamble : String) (e : GError),
      E.g_resources_lookup_data preamble_path = Except.ok preamble →
      E.g_resources_lookup_data source_path = Except.error e →
      r = some (-1, { calls := st.calls ++ lookups, errors := st.errors ++ [e] })) := by
  intro preamble_path source_path lookups r
  refine ⟨?_, ?_, ?_⟩
  · intro preamble body hp hb
    obtain ⟨result, later, errors, hr, hcases⟩ := compile_shader_found E builder defines
      shader_type shader_preamble shader_source st preamble body hdefines hlen hp hb
    refine ⟨result, _, later, hr, rfl, ?_⟩
    rcases hcases with h | h
    · exact Or.inl h.1
    · exact Or.inr h.1
  · intro e hp
    exact compile_shader_preamble_missing E builder defines shader_type shader_preamble
      shader_source st e hdefines hlen hp
  · intro preamble e hp hb
    exact compile_shader_body_missing E builder defines shader_type shader_preamble
      shader_source st preamble e hdefines hlen hp hb

/-- Witness for C12 in the small environment: version 150, one define, both
resources found; and a body that is not found. -/
theorem compile_shader_source_witness :
    (∃ (result : Int) (st1 : GskShaderState) (later : List GskExternalCall),
      gsk_shader_builder_compile_shader sampleShaderEnvironment sampleShaderBuilder
          GL_VERTEX_SHADER (some "preamble.glsl") (some "blit.glsl") ⟨[], []⟩ =
        some (result, st1) ∧
      st1.calls =
        [GskExternalCall.g_resources_lookup_data (some "/shaders/preamble.glsl"),
          GskExternalCall.g_resources_lookup_data (some "/shaders/blit.glsl"),
          GskExternalCall.glCreateShader GL_VERTEX_SHADER 3,
          GskExternalCall.glShaderSource 3
            "#version 150\n\n#define GSK_GL3 1\n\nprecision highp float;\nvoid main ();",
          GskExternalCall.glCompileShader 3] ++ later ∧
      (later = [] ∨ later = [GskExternalCall.glDeleteShader 3])) ∧
    gsk_shader_builder_compile_shader sampleShaderEnvironment sampleShaderBuilder
        GL_VERTEX_SHADER (some "preamble.glsl") (some "missing.glsl") ⟨[], []⟩ =
      some (-1,
        { calls :=
            [GskExternalCall.g_resources_lookup_data (some "/shaders/preamble.glsl"),
              GskExternalCall.g_resources_lookup_data (some "/shaders/missing.glsl")],
          errors := [⟨GErrorCode.OTHER 0, "The resource does not exist"⟩] }) :=
  ⟨(compile_shader_source sampleShaderEnvironment sampleShaderBuilder
      [("GSK_GL3", "1")] GL_VERTEX_SHADER (some "preamble.glsl") (some "blit.glsl") ⟨[], []⟩
      rfl (by decide)).1 "precision highp float;" "void main ();" rfl rfl,
   (compile_shader_source sampleShaderEnvironment sampleShaderBuilder
      [("GSK_GL3", "1")] GL_VERTEX_SHADER (some "preamble.glsl") (some "missing.glsl") ⟨[], []⟩
      rfl (by decide)).2.2 "precision highp float;"
        ⟨GErrorCode.OTHER 0, "The resource does not exist"⟩ rfl rfl⟩

/-- Why object names have to fit an `int`: when the driver names the vertex
shader `2 ^ 31`, the value is negative once stored in `vertex_id`; the shader
compiles, yet the call returns `-1`, sets no error and leaves the shader
behind. -/
theorem create_program_large_shader_name :
    gsk_shader_builder_create_program sampleShaderEnvironmentLargeNames sampleShaderBuilder
        (some "blit.glsl") (some "blit.glsl") ⟨[], []⟩ =
      some (-1,
        { calls :=
            [GskExternalCall.g_resources_lookup_data (some "/shaders/preamble.glsl"),
              GskExternalCall.g_resources_lookup_data (some "/shaders/blit.glsl"),
              GskExternalCall.glCreateShader GL_VERTEX_SHADER (2 ^ 31),
              GskExternalCall.glShaderSource (2 ^ 31)
                "#version 150\n\n#define GSK_GL3 1\n\nprecision highp float;\nvoid main ();",
              GskExternalCall.glCompileShader (2 ^ 31)],
          errors := [] }) := by
  decide

